import Mathlib

/-!
# Triggers plugin (FLHook): terminal interactions

A shallow embedding of `src/plugins/triggers/Triggers.cpp`.

Conventions of the embedding

* `Triggers.hpp` (the type declarations) is not part of the sources at hand, so the
  field types are taken as follows: every C++ integer is an unbounded `Int` (object
  and hash identifiers are `Nat`), every `float` is an exact rational `ℚ`, every
  `std::vector` is a `List`.
* The values returned by the host (FLHook core, Freelancer) during one call are the
  fields of an environment record (`Env`, `CompleteEnv`); the calls made to the host
  are returned in order as a list of `Call`.
* The two random engines are streams `Nat → Nat` of raw draws, read at successive
  positions; the distributions map a raw draw into their range.
* A run that the C++ standard leaves undefined (a read outside a vector, a distribution
  built from arguments that break its precondition) has no result: the function that models
  the run answers `none`, or the outcome named for it.
-/

namespace Triggers

/-! ## Data model -/

/-- Freelancer `Vector`: three float coordinates. -/
structure Vector where
  x : ℚ
  y : ℚ
  z : ℚ
deriving DecidableEq

/-- The type `Position`: a spawn location of an event family. `despawnTime` is not reflected
from the configuration file; it is run-time state. -/
structure Position where
  coordinates : Vector
  system : String
  despawnTime : Int
deriving DecidableEq

/-- The type `Event`: a point of interest that can be spawned. -/
structure Event where
  name : String
  solarFormation : String
  npcs : List (String × Int)
  spawnWeight : Int
  descriptionLowInfo : String
  descriptionMedInfo : String
  descriptionHighInfo : String
  lifetimeInSeconds : Int
deriving DecidableEq

/-- The type `EventFamily`: a weighted bucket of events with their candidate spawn positions. -/
structure EventFamily where
  name : String
  spawnWeight : Int
  eventList : List Event
  spawnPositionList : List Position
deriving DecidableEq

/-- The type `SpawnedObject`: a live object created for a terminal group. -/
structure SpawnedObject where
  spaceId : Nat
  spawnTime : Int
deriving DecidableEq

/-- The type `TerminalGroup`: the reflected configuration fields followed by the three
run-time fields `useInProgress`, `lastActivatedTime` and `activeHostileHackNpcs`. -/
structure TerminalGroup where
  terminalGroupName : String
  terminalName : String
  cooldownTimeInSeconds : Int
  useTimeInSeconds : Int
  hackTimeInSeconds : Int
  hackHostileChance : ℚ
  minHostileHackHostileNpcs : Int
  maxHostileHackHostileNpcs : Int
  useCostInCredits : Int
  minHackRewardInCredits : Int
  maxHackRewardInCredits : Int
  terminalList : List String
  eventFamilyUseList : List EventFamily
  eventFamilyHackList : List EventFamily
  hackRepReduction : ℚ
  hostileHackNpcs : List String
  useInProgress : Bool
  lastActivatedTime : Int
  activeHostileHackNpcs : List SpawnedObject
deriving DecidableEq

/-- The type `Config`: the fields of the configuration that the code reads. -/
structure Config where
  terminalGroups : List TerminalGroup
  terminalInitiateRadiusInMeters : ℚ
  terminalSustainRadiusInMeters : ℚ
  terminalNotifyAllRadiusInMeters : ℚ
  messageHackStartNotifyAll : String
  messageHackFinishNotifyAll : String
  shipActiveTerminalFuse : String
deriving DecidableEq

/-- The type `Global`: the plugin state. The two communicators are recorded as present or
absent. -/
structure Global where
  pluginActive : Bool
  npcCommunicator : Bool
  solarCommunicator : Bool
  config : Config
deriving DecidableEq

/-! ## Host interface -/

/-- The texts printed to the user, one constructor per text of the source. -/
inductive Message
  | pluginError
  | mustBeInSpace
  | mustSelectTarget
  | invalidCommand
  | clientPositionFailed
  | targetPositionFailed
  | tooFarAway
  | targetNotActive
  | onCooldown
  | alreadyInUse
  | hackConfirmPrompt
  | hackDetected
  | useConfirmPrompt
  | reputationTooLow
  | notEnoughCredits
  | remainWithin
  | eventDescription (text : String)
deriving DecidableEq

/-- The calls made to the host and to the two communicators. -/
inductive Call
  | PrintUserCmdText (m : Message)
  | PrintLocalUserCmdText (template : String) (radius : ℚ)
  | PlaySoundEffect (sound : String)
  | CreateNpc (kind : String) (pos : Vector) (system : Nat)
  | SetAttitude (terminalReputation : Int) (playerReputation : Int) (value : ℚ)
  | SetReputation (playerReputation : Int) (affiliation : Nat) (value : ℚ)
  | LightFuse (fuse : String)
  | SetRelativeHealth (target : Nat) (value : ℚ)
  | CreateSolarFormation (formation : String) (pos : Vector) (system : Nat)
  | ConErr (family : String)
  | ConDebug (event : String)
deriving DecidableEq

/-- The point at which `UserCmdStartTerminalInteraction` returns: one constructor per
`return` of the source, `started` being the last one (line 429). -/
inductive Reply
  | pluginError
  | notInSpace
  | noTarget
  | invalidCommand
  | tooFar
  | unknownTarget
  | onCooldown
  | alreadyInUse
  | hackConfirmPrompt
  | useConfirmPrompt
  | lowReputation
  | notEnoughCredits
  | started
deriving DecidableEq

/-- What the host answers during one call of `UserCmdStartTerminalInteraction`. -/
structure Env where
  /-- Result of `Hk::Player::GetShip(client)`; `none` is the error (docked). -/
  ship : Option Nat
  /-- Result of `Hk::Player::GetTarget(client)`; `none` is the error. -/
  target : Option Nat
  /-- First blank-separated token of the parameter, `GetParam` at position 0. -/
  action : String
  /-- Second blank-separated token of the parameter, `GetParam` at position 1. -/
  confirm : String
  /-- Result of `Hk::Solar::GetLocation(client, IdType::Client)`. -/
  playerLocation : Option Vector
  /-- Result of `Hk::Solar::GetLocation(solar, IdType::Solar)`. -/
  solarLocation : Nat → Option Vector
  /-- The function `Hk::Math::Distance3D`. -/
  distance3D : Vector → Vector → ℚ
  /-- The hash `CreateID`. -/
  createID : String → Nat
  /-- Value of `Hk::Time::GetUnixSeconds()` as read by the cooldown check (line 292). -/
  nowAtCheck : Int
  /-- Value of `Hk::Time::GetUnixSeconds()` as read for the i-th hostile NPC (line 363). -/
  nowAtSpawn : Nat → Int
  /-- Value of `Hk::Time::GetUnixSeconds()` as read at activation (line 423). -/
  nowAtActivation : Int
  /-- Position given by `pub::SpaceObj::GetLocation` for the ship of the client. -/
  clientPos : Vector
  /-- System given by `pub::SpaceObj::GetSystem(target, _)`. -/
  clientSystem : Nat
  /-- Handle given by `pub::SpaceObj::GetRep(target, _)`. -/
  terminalReputation : Int
  /-- Faction given by `pub::Reputation::GetAffiliation(terminalReputation, _)`. -/
  terminalAffiliation : Nat
  /-- Handle given by `pub::Player::GetRep(client, _)`. -/
  playerReputation : Int
  /-- Standing `Hk::Player::GetRep(client, terminalAffiliation).value()`. -/
  rep : ℚ
  /-- Cash `Hk::Player::GetCash(client).value()`. -/
  cash : Int
  /-- The object id returned by `NpcCommunicator::CreateNpc`. -/
  createNpc : String → Vector → Nat → Nat
  /-- Raw draws of the engine of `GetRandomNumber`. -/
  rng : Nat → Nat

/-! ## Random helpers -/

/-- The function `GetRandomNumber(min, max)`: `std::uniform_int_distribution(min, max)`, a value
of the closed range `[min, max]`, here determined by one raw draw. The distribution requires
`min ≤ max`; outside of that the C++ behaviour is undefined, which is the answer `none`. -/
def GetRandomNumber (min max : Int) (raw : Nat) : Option Int :=
  if max < min then none else some (min + ((raw : Int) % (max - min + 1)))

/-- C++ conversion `int(x)` of a float: truncation toward zero. -/
def truncToInt (q : ℚ) : Int :=
  Int.tdiv q.num (q.den : Int)

/-! ## clientIsInRangeOfSolar (lines 72-97) -/

/-- The function `clientIsInRangeOfSolar`: the answer and the texts printed on the way. -/
def clientIsInRangeOfSolar (env : Env) (solar : Nat) (distance : ℚ) : Bool × List Call :=
  match env.playerLocation with
  | none => (false, [Call.PrintUserCmdText Message.clientPositionFailed])
  | some playerPos =>
    match env.solarLocation solar with
    | none => (false, [Call.PrintUserCmdText Message.targetPositionFailed])
    | some solarPos =>
      if !(decide (env.distance3D playerPos solarPos < distance)) then (false, [])
      else (true, [])

/-! ## UserCmdStartTerminalInteraction (lines 219-430) -/

/-- The search of lines 263-283: the first group one of whose terminals hashes to the
target, with its index in `terminalGroups` (the index stands for the pointer `group`). -/
def findTerminalGroup (createID : String → Nat) (target : Nat) :
    List TerminalGroup → Option (Nat × TerminalGroup)
  | [] => none
  | g :: rest =>
    if g.terminalList.any (fun terminal => createID terminal == target) then some (0, g)
    else (findTerminalGroup createID target rest).map (fun p => (p.1 + 1, p.2))

/-- State of the hostile spawn loop: the objects appended to `activeHostileHackNpcs`, the
calls made, and the number of raw draws consumed so far. -/
structure SpawnLoop where
  spawned : List SpawnedObject
  calls : List Call
  draws : Nat
deriving DecidableEq

/-- The `for` loop of lines 351-366. `i` is the loop variable; the bound is drawn anew at
every test `i < GetRandomNumber(min, max)`. Each iteration then draws the three offsets
and the index into `hostileHackNpcs`, and reads the kind of the NPC at that index. The
answer `none` is an undefined run: a bound drawn from a range with `max < min`, or a kind
read at an index outside `hostileHackNpcs` (line 358). The first argument bounds the number
of iterations; when it is used up the bound is drawn once more and the test is taken to
fail, as it does once `i` has reached `maxHostileHackHostileNpcs` (see
`spawnHostileNpcs`). -/
def spawnLoop (env : Env) (group : TerminalGroup) : Nat → Nat → SpawnLoop → Option SpawnLoop
  | 0, _, st =>
    match GetRandomNumber group.minHostileHackHostileNpcs group.maxHostileHackHostileNpcs
        (env.rng st.draws) with
    | none => none
    | some _ => some { st with draws := st.draws + 1 }
  | fuel + 1, i, st =>
    let k := st.draws
    match GetRandomNumber group.minHostileHackHostileNpcs group.maxHostileHackHostileNpcs
        (env.rng k) with
    | none => none
    | some bound =>
      if (i : Int) < bound then
        match GetRandomNumber (-2000) 2000 (env.rng (k + 1)),
            GetRandomNumber (-2000) 2000 (env.rng (k + 2)),
            GetRandomNumber (-2000) 2000 (env.rng (k + 3)),
            GetRandomNumber 0 group.hostileHackNpcs.length (env.rng (k + 4)) with
        | some dx, some dy, some dz, some index =>
          match group.hostileHackNpcs[index.toNat]? with
          | none => none
          | some kind =>
            let npcSpawnPos : Vector :=
              { x := env.clientPos.x + dx, y := env.clientPos.y + dy
                z := env.clientPos.z + dz }
            let npcObject : SpawnedObject :=
              { spaceId := env.createNpc kind npcSpawnPos env.clientSystem
                spawnTime := env.nowAtSpawn i }
            spawnLoop env group fuel (i + 1)
              { spawned := st.spawned ++ [npcObject]
                calls := st.calls ++ [Call.CreateNpc kind npcSpawnPos env.clientSystem]
                draws := k + 5 }
        | _, _, _, _ => none
      else some { st with draws := k + 1 }

/-- The hostile spawn loop run from `i = 0`. Every bound drawn is at most
`maxHostileHackHostileNpcs`, so the test `i < bound` fails at the latest when `i` reaches
that number: this many iterations are always enough (`spawnLoop_bound_irrelevant`). -/
def spawnHostileNpcs (env : Env) (group : TerminalGroup) (draws : Nat) : Option SpawnLoop :=
  spawnLoop env group group.maxHostileHackHostileNpcs.toNat 0
    { spawned := [], calls := [], draws := draws }

/-- The outcome of one call: the plugin state afterwards, the return point, the calls
made to the host in order. -/
structure Result where
  global : Global
  reply : Reply
  calls : List Call
deriving DecidableEq

/-- Replace the group at index `i` (the write through the pointer `group`). -/
def Global.setGroup (global : Global) (i : Nat) (group : TerminalGroup) : Global :=
  { global with config :=
      { global.config with terminalGroups := global.config.terminalGroups.set i group } }

/-- The part of `UserCmdStartTerminalInteraction` after the group checks (lines 305-430):
confirmation, hostile roll, reputation and cash checks, activation. The answer `none` is an
undefined run of the hostile spawn loop. -/
def interact (global : Global) (env : Env) (target : Nat) (i : Nat) (group : TerminalGroup)
    (isLawful : Bool) (pre : List Call) : Option Result :=
  let calls := pre ++ [Call.PlaySoundEffect "ui_begin_scan"]
  let activate (group : TerminalGroup) (calls : List Call) : Result :=
    { global := global.setGroup i
        { group with useInProgress := true, lastActivatedTime := env.nowAtActivation }
      reply := Reply.started
      calls := calls ++
        [ Call.PrintUserCmdText Message.remainWithin,
          Call.PlaySoundEffect "ui_new_story_star",
          Call.LightFuse global.config.shipActiveTerminalFuse,
          Call.SetRelativeHealth target (1 / 2) ] }
  if !isLawful then
    if env.confirm != "confirm" then
      some { global := global, reply := Reply.hackConfirmPrompt
             calls := calls ++ [Call.PrintUserCmdText Message.hackConfirmPrompt] }
    else
      let calls := calls ++ [Call.PrintLocalUserCmdText global.config.messageHackStartNotifyAll
        global.config.terminalNotifyAllRadiusInMeters]
      match GetRandomNumber 0 100 (env.rng 0) with
      | none => none
      | some roll =>
        if roll ≤ truncToInt (group.hackHostileChance * 100) then
          match spawnHostileNpcs env group 1 with
          | none => none
          | some loop =>
            let group := { group with
              activeHostileHackNpcs := group.activeHostileHackNpcs ++ loop.spawned }
            some (activate group (calls ++ loop.calls ++
              [ Call.SetAttitude env.terminalReputation env.playerReputation (-9 / 10),
                Call.SetReputation env.playerReputation env.terminalAffiliation
                  (env.rep - group.hackRepReduction),
                Call.PrintUserCmdText Message.hackDetected ]))
        else some (activate group calls)
  else
    if env.confirm != "confirm" then
      some { global := global, reply := Reply.useConfirmPrompt
             calls := calls ++ [Call.PrintUserCmdText Message.useConfirmPrompt] }
    else if env.rep ≤ -1 / 4 then
      some { global := global, reply := Reply.lowReputation
             calls := calls ++ [Call.PrintUserCmdText Message.reputationTooLow] }
    else if env.cash < group.useCostInCredits then
      some { global := global, reply := Reply.notEnoughCredits
             calls := calls ++ [Call.PrintUserCmdText Message.notEnoughCredits] }
    else some (activate group calls)

/-- The command handler `UserCmdStartTerminalInteraction` (the command `/terminal`). The
answer `none` is an undefined run of the hostile spawn loop; every other run returns. -/
def UserCmdStartTerminalInteraction (global : Global) (env : Env) : Option Result :=
  if !global.pluginActive then
    some { global := global, reply := Reply.pluginError
           calls := [Call.PrintUserCmdText Message.pluginError] }
  else
  match env.ship with
  | none =>
    some { global := global, reply := Reply.notInSpace
           calls := [Call.PrintUserCmdText Message.mustBeInSpace] }
  | some _ =>
  match env.target with
  | none =>
    some { global := global, reply := Reply.noTarget
           calls := [Call.PrintUserCmdText Message.mustSelectTarget] }
  | some target =>
  let isLawful := env.action == "use"
  if !isLawful && env.action != "hack" then
    some { global := global, reply := Reply.invalidCommand
           calls := [Call.PrintUserCmdText Message.invalidCommand] }
  else
  let inRange := clientIsInRangeOfSolar env target global.config.terminalInitiateRadiusInMeters
  if !inRange.1 then
    some { global := global, reply := Reply.tooFar
           calls := inRange.2 ++ [Call.PrintUserCmdText Message.tooFarAway] }
  else
  match findTerminalGroup env.createID target global.config.terminalGroups with
  | none =>
    some { global := global, reply := Reply.unknownTarget
           calls := inRange.2 ++ [Call.PrintUserCmdText Message.targetNotActive] }
  | some (i, group) =>
  if env.nowAtCheck ≤ group.lastActivatedTime + group.cooldownTimeInSeconds then
    some { global := global, reply := Reply.onCooldown
           calls := inRange.2 ++ [Call.PrintUserCmdText Message.onCooldown] }
  else if group.useInProgress then
    some { global := global, reply := Reply.alreadyInUse
           calls := inRange.2 ++ [Call.PrintUserCmdText Message.alreadyInUse] }
  else interact global env target i group isLawful inRange.2

/-! ## GetRandomWeight (lines 44-50) -/

/-- Index of the weight that holds ticket `t` when the weights are laid end to end. -/
def weightIndex : List Int → Int → Nat
  | [], _ => 0
  | w :: ws, t => if t < w then 0 else weightIndex ws (t - w) + 1

/-- The function `GetRandomWeight`. The source (lines 44-50) only builds a
`std::discrete_distribution` from the weights and returns one sample of it; it has no check
and no error path of its own. What follows is the distribution as the C++ standard
describes it, determined by one raw draw in the way `GetRandomNumber` is. An empty range is
the distribution of the single index 0. Otherwise the raw draw picks one of `sum` tickets
and index `i` holds `weights[i]` of them. The distribution requires weights that are not
negative and not all zero; outside of that the C++ behaviour is undefined, which is the
answer `none`. -/
def GetRandomWeight (weights : List Int) (raw : Nat) : Option Nat :=
  if weights = [] then some 0
  else if weights.all (fun w => decide (0 ≤ w)) && decide (0 < weights.sum) then
    some (weightIndex weights ((raw : Int) % weights.sum))
  else none

/-! ## CompleteTerminalInteraction (lines 154-206) -/

/-- What the host answers during one call of `CompleteTerminalInteraction`. -/
structure CompleteEnv where
  /-- Raw draws of the engine of `GetRandomWeight`. -/
  weightRng : Nat → Nat
  /-- Raw draws of the engine of `GetRandomNumber`. -/
  rng : Nat → Nat
  /-- Value of `Hk::Time::GetUnixSeconds()` as read at line 188. -/
  now : Int
  /-- The hash `CreateID`. -/
  createID : String → Nat

/-- How the `do ... while` loop of lines 175-185 ends. `probes` is the number of indexes
drawn. `undefinedRead` is the read of `despawnTime` through an index outside the vector
(or through an index that the distribution could not draw). -/
inductive Selection
  | selected (index : Nat) (probes : Nat)
  | exhausted (probes : Nat)
  | undefinedRead (probes : Nat)
deriving DecidableEq

/-- The `do ... while` loop of lines 175-185. `counter` is the variable of the source; it
also numbers the draws, the loop being the only reader of the engine here. The loop body
draws an index, returns when `counter++ > 30`, and otherwise goes round again while
`position->despawnTime == 0`. The first argument bounds the number of rounds; `none` means
that bound was reached. -/
def selectLoop (positions : List Position) (rng : Nat → Nat) : Nat → Nat → Option Selection
  | 0, _ => none
  | fuel + 1, counter =>
    match GetRandomNumber 0 positions.length (rng counter) with
    | none => some (Selection.undefinedRead (counter + 1))
    | some index =>
      if counter > 30 then some (Selection.exhausted (counter + 1))
      else
        match positions[index.toNat]? with
        | none => some (Selection.undefinedRead (counter + 1))
        | some position =>
          if position.despawnTime == 0 then selectLoop positions rng fuel (counter + 1)
          else some (Selection.selected index.toNat (counter + 1))

/-- The loop started as in the source, with `counter = 0`; 32 rounds are always enough
(`selectLoop_spec`). -/
def selectSpawnPosition (positions : List Position) (rng : Nat → Nat) : Option Selection :=
  selectLoop positions rng 32 0

/-- The function `CreatePoiEvent` (lines 136-147): the calls it makes. -/
def CreatePoiEvent (createID : String → Nat) (event : Event) (position : Position) :
    List Call :=
  Call.CreateSolarFormation event.solarFormation position.coordinates (createID position.system)
    :: event.npcs.map
        (fun npcs => Call.CreateNpc npcs.1 position.coordinates (createID position.system))

/-- How `CompleteTerminalInteraction` ends: with the terminal group afterwards and the
calls made. `undefinedBehaviour` stands for a run that reads outside a vector or samples an
ill-formed distribution. -/
inductive Outcome
  | completed (group : TerminalGroup) (calls : List Call)
  | noPosition (group : TerminalGroup) (calls : List Call)
  | undefinedBehaviour
deriving DecidableEq

/-- The event family list chosen by `isLawful` (line 156). -/
def TerminalGroup.familyList (group : TerminalGroup) (isLawful : Bool) : List EventFamily :=
  if isLawful then group.eventFamilyUseList else group.eventFamilyHackList

/-- Write the event family list chosen by `isLawful` back into the group. -/
def TerminalGroup.setFamilyList (group : TerminalGroup) (isLawful : Bool)
    (families : List EventFamily) : TerminalGroup :=
  if isLawful then { group with eventFamilyUseList := families }
  else { group with eventFamilyHackList := families }

/-- The function `CompleteTerminalInteraction`. The family is the one at the first weighted
draw; the event weights are those of the family at a second weighted draw over the same
family weights (line 166); the event is read from the first family at the third draw.
The answer `none` means that the bound on the rounds of the position loop was reached. -/
def CompleteTerminalInteraction (env : CompleteEnv) (terminalGroup : TerminalGroup)
    (isLawful : Bool) : Option Outcome :=
  let eventFamililyList := terminalGroup.familyList isLawful
  let familyWeights := eventFamililyList.map (fun eventFamily => eventFamily.spawnWeight)
  match GetRandomWeight familyWeights (env.weightRng 0) with
  | none => some Outcome.undefinedBehaviour
  | some familyIndex =>
  match eventFamililyList[familyIndex]? with
  | none => some Outcome.undefinedBehaviour
  | some family =>
  match GetRandomWeight familyWeights (env.weightRng 1) with
  | none => some Outcome.undefinedBehaviour
  | some secondIndex =>
  match eventFamililyList[secondIndex]? with
  | none => some Outcome.undefinedBehaviour
  | some second =>
  let eventWeights := second.eventList.map (fun event => event.spawnWeight)
  match GetRandomWeight eventWeights (env.weightRng 2) with
  | none => some Outcome.undefinedBehaviour
  | some eventIndex =>
  match selectSpawnPosition family.spawnPositionList env.rng with
  | none => none
  | some (Selection.undefinedRead _) => some Outcome.undefinedBehaviour
  | some (Selection.exhausted _) =>
    some (Outcome.noPosition terminalGroup [Call.ConErr family.name])
  | some (Selection.selected index _) =>
    match family.spawnPositionList[index]?, family.eventList[eventIndex]? with
    | some position, some event =>
      let position := { position with despawnTime := env.now }
      let family := { family with
        spawnPositionList := family.spawnPositionList.set index position }
      some (Outcome.completed
        (terminalGroup.setFamilyList isLawful (eventFamililyList.set familyIndex family))
        ([Call.ConDebug event.name] ++ CreatePoiEvent env.createID event position ++
          [Call.PrintUserCmdText (Message.eventDescription event.descriptionMedInfo)]))
    | _, _ => some Outcome.undefinedBehaviour

/-! ## Properties stated about a request -/

/-- The request passes the checks of lines 222-289 and resolves to `group`, the entry
number `i` of `terminalGroups`: plugin active, ship in space, a target, a valid
sub-command, within the initiate radius, target on the list of a group. -/
def reachesGroup (global : Global) (env : Env) (target i : Nat) (group : TerminalGroup) :
    Prop :=
  global.pluginActive = true ∧ env.ship.isSome = true ∧ env.target = some target ∧
  (env.action = "use" ∨ env.action = "hack") ∧
  (clientIsInRangeOfSolar env target global.config.terminalInitiateRadiusInMeters).1 = true ∧
  findTerminalGroup env.createID target global.config.terminalGroups = some (i, group)

/-- The group is on cooldown at the time read by the check of line 292. -/
def onCooldown (env : Env) (group : TerminalGroup) : Prop :=
  env.nowAtCheck ≤ group.lastActivatedTime + group.cooldownTimeInSeconds

/-- The checks that follow the in-use check (lines 329-413) pass: the second token is
`confirm` and, for the lawful sub-command `use`, the standing is above -0.25 and the cash
covers the cost. -/
def passesLastChecks (env : Env) (group : TerminalGroup) : Prop :=
  env.confirm = "confirm" ∧
  (env.action = "use" → ¬ env.rep ≤ -1 / 4 ∧ ¬ env.cash < group.useCostInCredits)

/-- The calls of the hostile response: creation of an NPC, change of attitude, change of
reputation. -/
def Call.isEscalation : Call → Bool
  | Call.CreateNpc _ _ _ => true
  | Call.SetAttitude _ _ _ => true
  | Call.SetReputation _ _ _ => true
  | _ => false

/-- The group the target of the request resolves to, if any, with its index. -/
def resolvedGroup (global : Global) (env : Env) : Option (Nat × TerminalGroup) :=
  env.target.bind
    (fun target => findTerminalGroup env.createID target global.config.terminalGroups)

/-- The validation steps in the order in which the handler runs them (lines 222-303), each
as the pair of "this step fails" and the return point it leads to. -/
def validationChecks (global : Global) (env : Env) : List (Bool × Reply) :=
  [ (!global.pluginActive, Reply.pluginError),
    (env.ship.isNone, Reply.notInSpace),
    (env.target.isNone, Reply.noTarget),
    (env.action != "use" && env.action != "hack", Reply.invalidCommand),
    (env.target.any (fun target => !(clientIsInRangeOfSolar env target
        global.config.terminalInitiateRadiusInMeters).1), Reply.tooFar),
    ((resolvedGroup global env).isNone, Reply.unknownTarget),
    ((resolvedGroup global env).any (fun p =>
        decide (env.nowAtCheck ≤ p.2.lastActivatedTime + p.2.cooldownTimeInSeconds)),
      Reply.onCooldown),
    ((resolvedGroup global env).any (fun p => p.2.useInProgress), Reply.alreadyInUse) ]

/-- The validation steps in the order the specification lists them (section 4.5): plugin
availability, in space, has a target, target resolves to a known group, within the
initiate radius, not on cooldown, not in use. -/
def specifiedChecks (global : Global) (env : Env) : List (Bool × Reply) :=
  [ (!global.pluginActive, Reply.pluginError),
    (env.ship.isNone, Reply.notInSpace),
    (env.target.isNone, Reply.noTarget),
    ((resolvedGroup global env).isNone, Reply.unknownTarget),
    (env.target.any (fun target => !(clientIsInRangeOfSolar env target
        global.config.terminalInitiateRadiusInMeters).1), Reply.tooFar),
    ((resolvedGroup global env).any (fun p =>
        decide (env.nowAtCheck ≤ p.2.lastActivatedTime + p.2.cooldownTimeInSeconds)),
      Reply.onCooldown),
    ((resolvedGroup global env).any (fun p => p.2.useInProgress), Reply.alreadyInUse) ]

/-- The return point of the first failing step of a list of steps. -/
def firstFailure (checks : List (Bool × Reply)) : Option Reply :=
  (checks.find? (fun c => c.1)).map (fun c => c.2)

/-! ## Properties stated about the position loop -/

/-- The index drawn at probe number `k` (counting from 0) of the position loop. -/
def probeIndex (positions : List Position) (rng : Nat → Nat) (k : Nat) : Option Nat :=
  (GetRandomNumber 0 positions.length (rng k)).map (fun index => index.toNat)

/-- The position read at probe number `k`, if the index drawn lies in the vector. -/
def probedPosition (positions : List Position) (rng : Nat → Nat) (k : Nat) :
    Option Position :=
  (probeIndex positions rng k).bind (fun index => positions[index]?)

/-- The position probed at number `k` fails the test of the loop: it lies in the vector and
the loop condition `despawnTime == 0` sends the loop round again. -/
def sentRoundAgain (positions : List Position) (rng : Nat → Nat) (k : Nat) : Bool :=
  match probedPosition positions rng k with
  | some position => position.despawnTime == 0
  | none => false

/-- Number of indexes drawn by the loop. -/
def Selection.probes : Selection → Nat
  | Selection.selected _ probes => probes
  | Selection.exhausted probes => probes
  | Selection.undefinedRead probes => probes

/-! ## Sample data -/

/-- A terminal group with a cooldown of 60 seconds and a use cost of 100 credits, last
activated at time 1000. -/
def sampleGroup : TerminalGroup :=
  { terminalGroupName := "terminal_group_1"
    terminalName := "Communications Buoy"
    cooldownTimeInSeconds := 60
    useTimeInSeconds := 30
    hackTimeInSeconds := 90
    hackHostileChance := 1
    minHostileHackHostileNpcs := 2
    maxHostileHackHostileNpcs := 2
    useCostInCredits := 100
    minHackRewardInCredits := 1000
    maxHackRewardInCredits := 2000
    terminalList := ["bw01_01_terminal"]
    eventFamilyUseList := []
    eventFamilyHackList := []
    hackRepReduction := 1 / 20
    hostileHackNpcs := ["fc_lh_gunboat"]
    useInProgress := false
    lastActivatedTime := 1000
    activeHostileHackNpcs := [] }

/-- A plugin state holding `group` as its only terminal group. -/
def sampleGlobal (group : TerminalGroup) : Global :=
  { pluginActive := true
    npcCommunicator := true
    solarCommunicator := true
    config :=
      { terminalGroups := [group]
        terminalInitiateRadiusInMeters := 500
        terminalSustainRadiusInMeters := 1000
        terminalNotifyAllRadiusInMeters := 5000
        messageHackStartNotifyAll := "hack started"
        messageHackFinishNotifyAll := "hack finished"
        shipActiveTerminalFuse := "fuse" } }

/-- A request `/terminal use confirm` at time `now` by a client in space with `cash`
credits and standing `rep`, 100 metres from its target, the terminal number 16
(`CreateID` is modelled by the length of the nickname). -/
def sampleEnv (now : Int) (cash : Int) (rep : ℚ) : Env :=
  { ship := some 1
    target := some 16
    action := "use"
    confirm := "confirm"
    playerLocation := some ⟨0, 0, 0⟩
    solarLocation := fun _ => some ⟨100, 0, 0⟩
    distance3D := fun a b => b.x - a.x
    createID := fun s => s.length
    nowAtCheck := now
    nowAtSpawn := fun _ => now
    nowAtActivation := now
    clientPos := ⟨0, 0, 0⟩
    clientSystem := 3
    terminalReputation := 11
    terminalAffiliation := 5
    playerReputation := 12
    rep := rep
    cash := cash
    createNpc := fun _ _ _ => 900
    rng := fun _ => 0 }

/-- The sample group while a session is running on it. -/
def busyGroup : TerminalGroup :=
  { sampleGroup with useInProgress := true }

/-- A request on an object that is on the list of no group (no nickname has length 99) and
that lies 900 metres away, outside the initiate radius of 500. -/
def farEnv : Env :=
  { sampleEnv 1061 200 0 with
    target := some 99
    solarLocation := fun _ => some ⟨900, 0, 0⟩ }

/-- A request `/terminal hack` without the token `confirm`. -/
def unconfirmedHackEnv : Env :=
  { sampleEnv 1061 200 0 with action := "hack", confirm := "" }

/-- A spawn position that is free (`despawnTime == 0`). -/
def freePosition : Position :=
  { coordinates := ⟨1000, 0, 0⟩, system := "li01", despawnTime := 0 }

/-- A spawn position that has been occupied since time 100. -/
def occupiedPosition : Position :=
  { coordinates := ⟨0, 2000, 0⟩, system := "li01", despawnTime := 100 }

/-- An event with one NPC. -/
def sampleEvent : Event :=
  { name := "wreck"
    solarFormation := "wreck_formation"
    npcs := [("pirate", 1)]
    spawnWeight := 1
    descriptionLowInfo := "low"
    descriptionMedInfo := "medium"
    descriptionHighInfo := "high"
    lifetimeInSeconds := 600 }

/-- An event family with one event and the given spawn positions. -/
def sampleFamily (positions : List Position) : EventFamily :=
  { name := "wrecks", spawnWeight := 1, eventList := [sampleEvent]
    spawnPositionList := positions }

/-- The sample group with one family on its lawful list. -/
def siteGroup (positions : List Position) : TerminalGroup :=
  { sampleGroup with eventFamilyUseList := [sampleFamily positions] }

/-- A run of `CompleteTerminalInteraction` at time 5000 whose k-th raw draw of
`GetRandomNumber` is `k`. -/
def sampleCompleteEnv : CompleteEnv :=
  { weightRng := fun _ => 0, rng := fun k => k, now := 5000, createID := fun s => s.length }

/-- A run of `CompleteTerminalInteraction` at time 5000 whose raw draws are all 0. -/
def zeroCompleteEnv : CompleteEnv :=
  { sampleCompleteEnv with rng := fun _ => 0 }

/-- The three weighted draws of lines 156-170 on their own: the index and the family of the
first draw and the event index of the third draw, or `none` when one of the draws is
ill-formed or one of the two family reads lies outside the vector. -/
def weightedDraws (env : CompleteEnv) (terminalGroup : TerminalGroup) (isLawful : Bool) :
    Option (Nat × EventFamily × Nat) :=
  let eventFamililyList := terminalGroup.familyList isLawful
  let familyWeights := eventFamililyList.map (fun eventFamily => eventFamily.spawnWeight)
  (GetRandomWeight familyWeights (env.weightRng 0)).bind fun familyIndex =>
  (eventFamililyList[familyIndex]?).bind fun family =>
  (GetRandomWeight familyWeights (env.weightRng 1)).bind fun secondIndex =>
  (eventFamililyList[secondIndex]?).bind fun second =>
  (GetRandomWeight (second.eventList.map (fun event => event.spawnWeight))
    (env.weightRng 2)).map fun eventIndex => (familyIndex, family, eventIndex)

/-- The console texts of `LoadSettings`. -/
inductive LoadDiagnostic
  | npcNotFound
  | solarNotFound
  | pluginDisabled
deriving DecidableEq

/-- The function `LoadSettings`. `config` is the configuration read from the JSON file,
`npcFound` and `solarFound` tell whether `ImportPluginCommunicator` found the NPC and the
solar communicator. The function stores the three, and sets `pluginActive` to false for
each communicator that is missing; it never sets `pluginActive` to true. -/
def LoadSettings (global : Global) (config : Config) (npcFound solarFound : Bool) :
    Global × List LoadDiagnostic :=
  let loaded : Global :=
    { global with config := config, npcCommunicator := npcFound
                  solarCommunicator := solarFound }
  let afterNpc : Global × List LoadDiagnostic :=
    if !loaded.npcCommunicator then
      ({ loaded with pluginActive := false }, [LoadDiagnostic.npcNotFound])
    else (loaded, [])
  let afterSolar : Global × List LoadDiagnostic :=
    if !afterNpc.1.solarCommunicator then
      ({ afterNpc.1 with pluginActive := false }, afterNpc.2 ++ [LoadDiagnostic.solarNotFound])
    else afterNpc
  if !afterSolar.1.pluginActive then
    (afterSolar.1, afterSolar.2 ++ [LoadDiagnostic.pluginDisabled])
  else afterSolar

/-- The function `ProcessActiveTerminal` (lines 210-212): its body is empty. -/
def ProcessActiveTerminal (global : Global) : Global :=
  global

/-- The function `TerminalInteractionTimer` (lines 214-217), the only timer of the plugin:
its body is a comment. -/
def TerminalInteractionTimer (global : Global) : Global :=
  global

/-- A sequence of requests handled one after the other: the plugin state at the end and
the return points in order; `none` when one of the runs is undefined. -/
def handleRequests : Global → List Env → Option (Global × List Reply)
  | global, [] => some (global, [])
  | global, env :: rest =>
    match UserCmdStartTerminalInteraction global env with
    | none => none
    | some r =>
      match handleRequests r.global rest with
      | none => none
      | some tail => some (tail.1, r.reply :: tail.2)

/-! ## Properties stated about the hostile response -/

/-- The hostile roll of line 349 escalates for this group. -/
def escalates (env : Env) (group : TerminalGroup) : Prop :=
  ∃ roll, GetRandomNumber 0 100 (env.rng 0) = some roll ∧
    roll ≤ truncToInt (group.hackHostileChance * 100)

/-- No kind index drawn by the hostile spawn loop falls outside `hostileHackNpcs`. The roll
is the raw draw number 0 and every iteration reads five raw draws (the bound, three offsets,
the kind index), so iteration `j` draws its kind index from the raw draw number `5 * j + 5`;
the loop has at most `maxHostileHackHostileNpcs` iterations. -/
def kindDrawsInRange (env : Env) (group : TerminalGroup) : Prop :=
  ∀ j : Nat, j < group.maxHostileHackHostileNpcs.toNat →
    ∃ index, GetRandomNumber 0 group.hostileHackNpcs.length (env.rng (5 * j + 5)) =
        some index ∧ index < group.hostileHackNpcs.length

/-- The draws of the hostile spawn loop are well-formed for this group: the range of the
spawn count is not empty and no kind index falls outside `hostileHackNpcs`. -/
def spawnDrawsDefined (env : Env) (group : TerminalGroup) : Prop :=
  group.minHostileHackHostileNpcs ≤ group.maxHostileHackHostileNpcs ∧
  kindDrawsInRange env group

/-- The run of the handler on `group` is defined: when the request is a hack whose roll
escalates, the draws of the hostile spawn loop are well-formed. -/
def definedRun (env : Env) (group : TerminalGroup) : Prop :=
  env.action = "hack" → escalates env group → spawnDrawsDefined env group

/-- Number of values of the roll `GetRandomNumber(0, 100)`, out of its 101 values 0..100,
for which a group with hostile chance `chance` escalates. -/
def escalatingRolls (chance : ℚ) : Nat :=
  (List.range 101).countP
    (fun roll : Nat => decide ((roll : Int) ≤ truncToInt (chance * 100)))

/-- The hostile-NPC lists of all groups, in order. -/
def hostileNpcLists (global : Global) : List (List SpawnedObject) :=
  global.config.terminalGroups.map (fun g => g.activeHostileHackNpcs)

/-- The request is a confirmed hack that passes every check of the handler on `group`, the
entry `i` of `terminalGroups`. -/
def confirmedHack (global : Global) (env : Env) (target i : Nat) (group : TerminalGroup) :
    Prop :=
  reachesGroup global env target i group ∧ ¬ onCooldown env group ∧
  group.useInProgress = false ∧ env.action = "hack" ∧ env.confirm = "confirm"

/-! ## More sample data -/

/-- A request `/terminal hack confirm` on the sample terminal at time 1061 by an actor of
standing `rep`; every raw draw is 0, so the roll is 0. -/
def hackEnv (rep : ℚ) : Env :=
  { sampleEnv 1061 200 rep with action := "hack" }

/-- The sample group with a hostile chance of 0. -/
def calmGroup : TerminalGroup :=
  { sampleGroup with hackHostileChance := 0 }

/-- The sample group with a session running on it and one family, with a free and an
occupied position, on its lawful list. -/
def busySiteGroup : TerminalGroup :=
  { siteGroup [freePosition, occupiedPosition] with useInProgress := true }

/-- The hostile NPC that the sample requests record: created 2000 below the actor on every
axis, object 900, at time 1061. -/
def sampleNpc : SpawnedObject :=
  { spaceId := 900, spawnTime := 1061 }

/-! ## Sample data for the draws -/

/-- A family with one event and one occupied position. -/
def smallFamily : EventFamily :=
  { name := "wrecks", spawnWeight := 1, eventList := [sampleEvent]
    spawnPositionList := [occupiedPosition] }

/-- A family with two events. -/
def largeFamily : EventFamily :=
  { name := "convoys", spawnWeight := 1, eventList := [sampleEvent, sampleEvent]
    spawnPositionList := [occupiedPosition] }

/-- The sample group with the small and the large family on its lawful list. -/
def twoFamilyGroup : TerminalGroup :=
  { sampleGroup with eventFamilyUseList := [smallFamily, largeFamily] }

/-- A run of `CompleteTerminalInteraction` whose first weighted draw is the raw value 0 and
whose later weighted draws are the raw value 1. -/
def crossEnv : CompleteEnv :=
  { weightRng := fun k => if k = 0 then 0 else 1, rng := fun _ => 0, now := 5000
    createID := fun s => s.length }

/-- The sample group with a hostile NPC count range of [1, 3]. -/
def variedGroup : TerminalGroup :=
  { sampleGroup with minHostileHackHostileNpcs := 1, maxHostileHackHostileNpcs := 3 }

/-- A confirmed hack whose raw draw number 1, the first draw of the spawn count, is 2 and
whose other raw draws are 0. -/
def redrawEnv : Env :=
  { hackEnv 0 with rng := fun k => if k = 1 then 2 else 0 }

/-- A confirmed hack whose raw draw number 5, the index of the kind of the first hostile
NPC, is 1 and whose other raw draws are 0. -/
def edgeEnv : Env :=
  { hackEnv 0 with rng := fun k => if k = 5 then 1 else 0 }

end Triggers

/-!
# Autobuy plugin: the command `/autobuy`

A shallow embedding of `UserCmdAutobuy`, `LoadAutobuyInfo` and `LoadPlayerAutobuy` of
`src/plugins/autobuy/Autobuy.cpp`. The entry of the client in the map `autobuyInfo` is an
`Option`, the character file is a function from keys to booleans, the two tokens of the
parameter (`GetParam` at positions 0 and 1) are given as strings.
-/

namespace Autobuy

/-- The class `AutobuyInfo` of `Autobuy.h`: one flag per autobuy type. -/
structure AutobuyInfo where
  missiles : Bool
  mines : Bool
  torps : Bool
  cd : Bool
  cm : Bool
  bb : Bool
  repairs : Bool
  shells : Bool
deriving DecidableEq

/-- The calls made by the command to the host. -/
inductive Call
  | PrintUserCmdText (text : String)
  | SetCharacterIni (key : String) (value : String)
  | SaveChar
deriving DecidableEq

/-- The function `LoadPlayerAutobuy` (lines 38-50): the flags read from the character
file. -/
def LoadPlayerAutobuy (ini : String → Bool) : AutobuyInfo :=
  { missiles := ini "autobuy.missiles"
    mines := ini "autobuy.mines"
    torps := ini "autobuy.torps"
    cd := ini "autobuy.cd"
    cm := ini "autobuy.cm"
    bb := ini "autobuy.bb"
    repairs := ini "autobuy.repairs"
    shells := ini "autobuy.shells" }

/-- The function `LoadAutobuyInfo` (lines 244-252): the entry of the client, loaded from
the character file when the map does not hold one. -/
def LoadAutobuyInfo (stored : Option AutobuyInfo) (ini : String → Bool) : AutobuyInfo :=
  match stored with
  | some info => info
  | none => LoadPlayerAutobuy ini

/-- The usage text of lines 496-513. -/
def usageText : List String :=
  [ "Error: Invalid parameters",
    "Usage: /autobuy <param> [<on/off>]",
    "<Param>:",
    "|  info - display current autobuy-settings",
    "|  missiles - enable/disable autobuy for missiles",
    "|  torps - enable/disable autobuy for torpedos",
    "|  mines - enable/disable autobuy for mines",
    "|  shells - enable/disable autobuy for shells and miscellaneous ammo",
    "|  cd - enable/disable autobuy for cruise disruptors",
    "|  cm - enable/disable autobuy for countermeasures",
    "|  bb - enable/disable autobuy for nanobots/shield batteries",
    "|  repairs - enable/disable automatic repair of ship and equipment",
    "|  all: enable/disable autobuy for all of the above",
    "Examples:",
    "|  \"/autobuy missiles on\" enable autobuy for missiles",
    "|  \"/autobuy all off\" completely disable autobuy",
    "|  \"/autobuy info\" show autobuy info" ]

/-- The text `On` or `Off` of a flag. -/
def onOff (flag : Bool) : String :=
  if flag then "On" else "Off"

/-- The function `UserCmdAutobuy` (lines 487-605): the entry of the client after the
command and the calls made. An empty type prints the usage text and execution goes on. -/
def UserCmdAutobuy (stored : Option AutobuyInfo) (ini : String → Bool)
    (autobuyType newState : String) : AutobuyInfo × List Call :=
  let autobuyInfo := LoadAutobuyInfo stored ini
  let usage : List Call :=
    if autobuyType.isEmpty then usageText.map Call.PrintUserCmdText else []
  if autobuyType == "info" then
    (autobuyInfo, usage ++
      [ Call.PrintUserCmdText ("Missiles: " ++ onOff autobuyInfo.missiles),
        Call.PrintUserCmdText ("Mines: " ++ onOff autobuyInfo.mines),
        Call.PrintUserCmdText ("Shells: " ++ onOff autobuyInfo.shells),
        Call.PrintUserCmdText ("Torpedos: " ++ onOff autobuyInfo.torps),
        Call.PrintUserCmdText ("Cruise Disruptors: " ++ onOff autobuyInfo.cd),
        Call.PrintUserCmdText ("Countermeasures: " ++ onOff autobuyInfo.cm),
        Call.PrintUserCmdText ("Nanobots/Shield Batteries: " ++ onOff autobuyInfo.bb),
        Call.PrintUserCmdText ("Repairs: " ++ onOff autobuyInfo.repairs) ])
  else if newState.isEmpty || (newState != "on" && newState != "off") then
    (autobuyInfo, usage ++ [Call.PrintUserCmdText "ERR invalid parameters"])
  else
    let enable := newState == "on"
    let value := if enable then "true" else "false"
    let finish (info : AutobuyInfo) (writes : List Call) : AutobuyInfo × List Call :=
      (info, usage ++ writes ++ [Call.SaveChar, Call.PrintUserCmdText "OK"])
    if autobuyType == "all" then
      finish
        { missiles := enable, mines := enable, shells := enable, torps := enable
          cd := enable, cm := enable, bb := enable, repairs := enable }
        [ Call.SetCharacterIni "autobuy.missiles" value,
          Call.SetCharacterIni "autobuy.mines" value,
          Call.SetCharacterIni "autobuy.shells" value,
          Call.SetCharacterIni "autobuy.torps" value,
          Call.SetCharacterIni "autobuy.cd" value,
          Call.SetCharacterIni "autobuy.cm" value,
          Call.SetCharacterIni "autobuy.bb" value,
          Call.SetCharacterIni "autobuy.repairs" value ]
    else if autobuyType == "missiles" then
      finish { autobuyInfo with missiles := enable }
        [Call.SetCharacterIni "autobuy.missiles" value]
    else if autobuyType == "mines" then
      finish { autobuyInfo with mines := enable } [Call.SetCharacterIni "autobuy.mines" value]
    else if autobuyType == "shells" then
      finish { autobuyInfo with shells := enable }
        [Call.SetCharacterIni "autobuy.shells" value]
    else if autobuyType == "torps" then
      finish { autobuyInfo with torps := enable } [Call.SetCharacterIni "autobuy.torps" value]
    else if autobuyType == "cd" then
      finish { autobuyInfo with cd := enable } [Call.SetCharacterIni "autobuy.cd" value]
    else if autobuyType == "cm" then
      finish { autobuyInfo with cm := enable } [Call.SetCharacterIni "autobuy.cm" value]
    else if autobuyType == "bb" then
      finish { autobuyInfo with bb := enable } [Call.SetCharacterIni "autobuy.bb" value]
    else if autobuyType == "repairs" then
      finish { autobuyInfo with repairs := enable }
        [Call.SetCharacterIni "autobuy.repairs" value]
    else
      (autobuyInfo, usage ++ [Call.PrintUserCmdText "ERR invalid parameters"])

/-- The eight autobuy types of the command. -/
def autobuyTypes : List String :=
  ["missiles", "mines", "shells", "torps", "cd", "cm", "bb", "repairs"]

/-- The flag of an `AutobuyInfo` that carries the name of an autobuy type. -/
def AutobuyInfo.flag (info : AutobuyInfo) (name : String) : Bool :=
  if name = "missiles" then info.missiles
  else if name = "mines" then info.mines
  else if name = "shells" then info.shells
  else if name = "torps" then info.torps
  else if name = "cd" then info.cd
  else if name = "cm" then info.cm
  else if name = "bb" then info.bb
  else if name = "repairs" then info.repairs
  else false

/-- An entry with missiles and repairs switched on. -/
def sampleInfo : AutobuyInfo :=
  { missiles := true, mines := false, torps := false, cd := false, cm := false, bb := false
    repairs := true, shells := false }

/-! ## The cart loop of OnBaseEnter (lines 415-484) -/

/-- The struct `AutobuyCartItem` of `Autobuy.h`; `count` is a 32-bit unsigned value. -/
structure AutobuyCartItem where
  archId : Nat
  count : Nat
  description : String
deriving DecidableEq

/-- An entry of `lstMarketMisc` of the base: a good on sale and the standing it needs. -/
structure MarketGood where
  iArchId : Nat
  fRep : ℚ
deriving DecidableEq

/-- What the host answers inside the cart loop. -/
structure Shop where
  /-- The function `Arch2Good`. -/
  arch2Good : Nat → Nat
  /-- The list `bi->lstMarketMisc`. -/
  marketMisc : List MarketGood
  /-- The standing `Hk::Player::GetRep(client, baseRep.value()).value()`. -/
  playerRep : ℚ
  /-- The price `Hk::Solar::GetCommodityPrice(baseId, archId)`; `none` is the error. -/
  goodPrice : Nat → Option ℚ
  /-- The volume `Archetype::GetEquipment(archId)->fVolume`. -/
  volume : Nat → ℚ

/-- The texts printed by the cart loop. -/
inductive CartText
  | insufficientCargoSpace (description : String)
  | insufficientCredits (description : String)
  | bought (description : String) (count : Nat) (cost : Nat)
deriving DecidableEq

/-- The calls made by the cart loop. -/
inductive CartCall
  | PrintUserCmdText (text : CartText)
  | RemoveCash (amount : Nat)
  | AddCargo (archId : Nat) (count : Nat)
deriving DecidableEq

/-- Conversion of an integer to a 32-bit unsigned value. -/
def toUint (n : Int) : Nat :=
  (n % 4294967296).toNat

/-- Conversion of an integer to a 32-bit signed value. -/
def toInt32 (n : Int) : Int :=
  (n + 2147483648) % 4294967296 - 2147483648

/-- C++ conversion of a float to an integer: truncation toward zero. -/
def truncate (q : ℚ) : Int :=
  Int.tdiv q.num (q.den : Int)

/-- The function `std::ceil` on a float. -/
def ceiling (q : ℚ) : Int :=
  -((-q).num / ((-q).den : Int))

/-- One round of the cart loop (lines 423-483) for the cart item `buy`: the remaining hold
size afterwards and the calls made. `cash` is the value read once before the loop
(line 421); the loop never writes it. A division by a volume of 0 is a division of
rationals here. -/
def buyItem (shop : Shop) (cash : Nat) (remHoldSize : Int) (buy : AutobuyCartItem) :
    Int × List CartCall :=
  if buy.count == 0 || shop.arch2Good buy.archId == 0 then (remHoldSize, [])
  else
    let goodAvailable :=
      match shop.marketMisc.find? (fun available => available.iArchId == buy.archId) with
      | some available => decide (shop.playerRep ≥ available.fRep)
      | none => false
    if !goodAvailable then (remHoldSize, [])
    else
      match shop.goodPrice buy.archId with
      | none => (remHoldSize, [])
      | some goodPrice =>
        let fVolume := shop.volume buy.archId
        let newCount := toUint (truncate ((remHoldSize : ℚ) / fVolume))
        let tooLarge := decide ((remHoldSize : ℚ) < ceiling (fVolume * (buy.count : ℚ)))
        if tooLarge && newCount == 0 then
          (remHoldSize,
            [CartCall.PrintUserCmdText (CartText.insufficientCargoSpace buy.description)])
        else
          let count := if tooLarge then newCount else buy.count
          let uCost := toUint (toUint (truncate goodPrice) * count)
          if cash < uCost then
            (remHoldSize,
              [CartCall.PrintUserCmdText (CartText.insufficientCredits buy.description)])
          else
            (toInt32 (remHoldSize - toUint (truncate fVolume * count)),
              [ CartCall.RemoveCash uCost, CartCall.AddCargo buy.archId count,
                CartCall.PrintUserCmdText (CartText.bought buy.description count uCost) ])

/-- The cart loop of `OnBaseEnter` (lines 423-483): the calls made for the whole cart. -/
def cartLoop (shop : Shop) (cash : Nat) : Int → List AutobuyCartItem → List CartCall
  | _, [] => []
  | remHoldSize, buy :: rest =>
    let r := buyItem shop cash remHoldSize buy
    r.2 ++ cartLoop shop cash r.1 rest

/-- The credits removed by a list of calls: the sum of the amounts given to `RemoveCash`. -/
def creditsRemoved : List CartCall → Nat
  | [] => 0
  | CartCall.RemoveCash amount :: rest => amount + creditsRemoved rest
  | _ :: rest => creditsRemoved rest

/-! ## GetAmmoLimits and AddEquipToCart (lines 57-66, 150-242) -/

/-- The answers of `Hk::Client::GetEqType` that the code tells apart; `ET_UNLISTED` stands
for every other kind. -/
inductive EquipmentType
  | ET_GUN
  | ET_MINE
  | ET_MISSILE
  | ET_CM
  | ET_CD
  | ET_TORPEDO
  | ET_OTHER
  | ET_UNLISTED
deriving DecidableEq

/-- An entry of the equipment list of the player (`EquipDesc`), also the entries of the
cargo list (`CARGO_INFO`) that `EnumCargo` makes from it. -/
structure EquipDesc where
  iArchId : Nat
  iCount : Int
  bMounted : Bool
  isInternal : Bool
  sId : Nat
deriving DecidableEq

/-- The struct `ammoData` with the fields that the code of `Autobuy.cpp` uses. -/
structure ammoData where
  ammoCount : Int
  launcherCount : Int
  ammoLimit : Int
  ammoAdjustment : Int
  sid : Nat
deriving DecidableEq

/-- A configured limit of `global->ammoLimits`, with the fields that the code uses. -/
structure AmmoLimit where
  launcherStackingLimit : Int
  ammoLimit : Int
deriving DecidableEq

/-- What the host and the configuration answer to `GetAmmoLimits` and `AddEquipToCart`. -/
structure Armoury where
  /-- The function `pub::IsCommodity`. -/
  isCommodity : Nat → Bool
  /-- The function `Hk::Client::GetEqType` of the equipment of an archetype. -/
  eqType : Nat → EquipmentType
  /-- The field `iProjectileArchId` of a launcher. -/
  projectileArchId : Nat → Nat
  /-- The function `Arch2Good`. -/
  arch2Good : Nat → Nat
  /-- The map `global->ammoLimits`. -/
  ammoLimits : Nat → Option AmmoLimit
  /-- The constant `MAX_PLAYER_AMMO`. -/
  maxPlayerAmmo : Int

/-- A value-initialised `ammoData`. -/
def ammoData.zero : ammoData :=
  { ammoCount := 0, launcherCount := 0, ammoLimit := 0, ammoAdjustment := 0, sid := 0 }

/-- The entry of the map at `key`, value-initialised when the map has none
(`operator[]` read). -/
def entryAt (map : List (Nat × ammoData)) (key : Nat) : ammoData :=
  ((map.find? (fun entry => entry.1 == key)).map (fun entry => entry.2)).getD ammoData.zero

/-- The map after `map[key] = f(map[key])`, the entry being created when missing. -/
def update (map : List (Nat × ammoData)) (key : Nat) (f : ammoData → ammoData) :
    List (Nat × ammoData) :=
  if map.any (fun entry => entry.1 == key) then
    map.map (fun entry => if entry.1 == key then (entry.1, f entry.2) else entry)
  else map ++ [(key, f ammoData.zero)]

/-- The function `PlayerGetAmmoCount` (lines 57-66). -/
def PlayerGetAmmoCount (cargoList : List EquipDesc) (itemArchId : Nat) : Int :=
  match cargoList.find? (fun cargo => cargo.iArchId == itemArchId) with
  | some foundCargo => foundCargo.iCount
  | none => 0

/-- The body of the first loop of `GetAmmoLimits` (lines 155-197) for one equipment. -/
def countLauncher (armoury : Armoury) (returnMap : List (Nat × ammoData))
    (equip : EquipDesc) : List (Nat × ammoData) :=
  if armoury.isCommodity equip.iArchId then returnMap
  else
    let type := armoury.eqType equip.iArchId
    if type == EquipmentType.ET_OTHER && equip.bMounted then returnMap
    else
      let returnMap :=
        if type == EquipmentType.ET_OTHER then
          update returnMap equip.iArchId (fun d => { d with ammoCount := equip.iCount })
        else returnMap
      if !equip.bMounted || equip.isInternal then returnMap
      else if type != EquipmentType.ET_GUN && type != EquipmentType.ET_MINE &&
          type != EquipmentType.ET_MISSILE && type != EquipmentType.ET_CM &&
          type != EquipmentType.ET_CD && type != EquipmentType.ET_TORPEDO then returnMap
      else
        let ammo := armoury.projectileArchId equip.iArchId
        match armoury.ammoLimits ammo with
        | none => returnMap
        | some ammoLimit =>
          if ammoLimit.launcherStackingLimit > (entryAt returnMap ammo).launcherCount then
            update returnMap ammo (fun d => { d with launcherCount := d.launcherCount + 1 })
          else update returnMap ammo (fun d => d)

/-- The body of the second loop of `GetAmmoLimits` (lines 199-208) for one equipment. -/
def countAmmo (returnMap : List (Nat × ammoData)) (eq : EquipDesc) :
    List (Nat × ammoData) :=
  if returnMap.any (fun entry => entry.1 == eq.iArchId) then
    update returnMap eq.iArchId (fun d => { d with ammoCount := eq.iCount, sid := eq.sId })
  else returnMap

/-- The body of the third loop of `GetAmmoLimits` (lines 210-221) for one entry. -/
def setLimit (armoury : Armoury) (entry : Nat × ammoData) : Nat × ammoData :=
  let ammoLimit :=
    match armoury.ammoLimits entry.1 with
    | some limit => max 1 entry.2.launcherCount * limit.ammoLimit
    | none => armoury.maxPlayerAmmo
  (entry.1, { entry.2 with ammoLimit := ammoLimit
                           ammoAdjustment := ammoLimit - entry.2.ammoCount })

/-- The function `GetAmmoLimits` (lines 150-224) on the equipment list of the player. -/
def GetAmmoLimits (armoury : Armoury) (equipList : List EquipDesc) : List (Nat × ammoData) :=
  let counted := equipList.foldl (countLauncher armoury) []
  let held := equipList.foldl countAmmo counted
  held.map (setLimit armoury)

/-- The function `AddEquipToCart` (lines 226-242): the item it appends to the cart for the
launcher of archetype `launcher`. The count is stored in a 32-bit unsigned field. -/
def AddEquipToCart (armoury : Armoury) (launcher : Nat) (cargo : List EquipDesc)
    (desc : String) (ammoLimitMap : List (Nat × ammoData)) : AutobuyCartItem :=
  let archId := armoury.projectileArchId launcher
  let itemId := armoury.arch2Good archId
  let count : Int :=
    if (armoury.ammoLimits (armoury.arch2Good archId)).isSome then
      (entryAt ammoLimitMap itemId).ammoAdjustment - PlayerGetAmmoCount cargo archId
    else armoury.maxPlayerAmmo - PlayerGetAmmoCount cargo archId
  { archId := archId, count := toUint count, description := desc }

/-! ## Sample data for the cart -/

/-- A base that sells the goods 1 and 2 to everyone, each at 80 credits and of volume 1. -/
def sampleShop : Shop :=
  { arch2Good := fun archId => archId
    marketMisc := [{ iArchId := 1, fRep := -1 }, { iArchId := 2, fRep := -1 }]
    playerRep := 0
    goodPrice := fun _ => some 80
    volume := fun _ => 1 }

/-- A cart with one unit of good 1 and one unit of good 2. -/
def sampleCart : List AutobuyCartItem :=
  [ { archId := 1, count := 1, description := "Missiles" },
    { archId := 2, count := 1, description := "Mines" } ]

/-- A missile launcher of archetype 400 firing the ammo of archetype 500, for which a limit
of 50 per launcher is configured. -/
def sampleArmoury : Armoury :=
  { isCommodity := fun _ => false
    eqType := fun archId =>
      if archId = 400 then EquipmentType.ET_MISSILE else EquipmentType.ET_OTHER
    projectileArchId := fun _ => 500
    arch2Good := fun archId => archId
    ammoLimits := fun archId =>
      if archId = 500 then some { launcherStackingLimit := 2, ammoLimit := 50 } else none
    maxPlayerAmmo := 50 }

/-- The equipment of a player: the mounted launcher 400 and 30 units of its ammo 500. -/
def sampleEquipment : List EquipDesc :=
  [ { iArchId := 400, iCount := 1, bMounted := true, isInternal := false, sId := 1 },
    { iArchId := 500, iCount := 30, bMounted := false, isInternal := false, sId := 2 } ]

end Autobuy

/-!
# Loot Tables plugin: drops of a destroyed ship

A shallow embedding of `CheckForItem` and `ShipDestroyed` of
`src/plugins/loot_tables/LootTables.cpp`. The type declarations (`LootTables.hpp`) are not
part of the sources at hand: the unsigned fields are `Nat`. The ship is given by what the
hook reads from it; the random engine is a stream of raw draws, and
`std::discrete_distribution` is `Triggers.GetRandomWeight`.
-/

namespace LootTables

/-- The type `DropWeight`: one item of a loot table with its weight. -/
structure DropWeight where
  weighting : Nat
  item : String
  itemHashed : Nat
  dropCount : Nat
deriving DecidableEq

/-- The type `LootTable`. -/
structure LootTable where
  rollCount : Nat
  applyToPlayers : Bool
  applyToNpcs : Bool
  triggerItem : String
  triggerItemHashed : Nat
  dropWeights : List DropWeight
deriving DecidableEq

/-- What the hook reads from the destroyed ship: the archetypes of the equipment that
`CheckForItem` traverses, whether it is a player, its system and its owner. -/
structure Ship where
  equipment : List Nat
  isPlayer : Bool
  system : Nat
  owner : Nat
deriving DecidableEq

/-- One call of `Server.MineAsteroid`: a drop. -/
structure Drop where
  system : Nat
  container : Nat
  itemHashed : Nat
  dropCount : Nat
  owner : Nat
deriving DecidableEq

/-- The function `CheckForItem` (lines 36-53): some equipment of the ship has the
archetype. -/
def CheckForItem (ship : Ship) (triggerItemHashed : Nat) : Bool :=
  ship.equipment.any (fun archId => archId == triggerItemHashed)

/-- The roll loop of lines 83-101 with `rolls` iterations left, reading the raw draws from
position `k`: the drops made and the position afterwards. The answer `none` stands for
undefined behaviour: an ill-formed distribution or a read outside `dropWeights`. -/
def rollDrops (container : Nat) (ship : Ship) (lootTable : LootTable) (rng : Nat → Nat) :
    Nat → Nat → Option (List Drop × Nat)
  | 0, k => some ([], k)
  | rolls + 1, k =>
    let weights := lootTable.dropWeights.map (fun dw => (dw.weighting : Int))
    match Triggers.GetRandomWeight weights (rng k) with
    | none => none
    | some chosenIndex =>
      match lootTable.dropWeights[chosenIndex]? with
      | none => none
      | some dw =>
        (rollDrops container ship lootTable rng rolls (k + 1)).map fun r =>
          ({ system := ship.system, container := container, itemHashed := dw.itemHashed
             dropCount := dw.dropCount, owner := ship.owner } :: r.1, r.2)

/-- The loop over the loot tables of `ShipDestroyed` (lines 66-102), reading the raw draws
from position `k`: the drops made. A table whose trigger item is not aboard, or that does
not apply to the kind of ship, ends the function (`return`). -/
def dropsFrom (container : Nat) (ship : Ship) (rng : Nat → Nat) :
    List LootTable → Nat → Option (List Drop)
  | [], _ => some []
  | lootTable :: rest, k =>
    if !CheckForItem ship lootTable.triggerItemHashed then some []
    else if !((ship.isPlayer && lootTable.applyToPlayers) ||
        (!ship.isPlayer && lootTable.applyToNpcs)) then some []
    else
      match rollDrops container ship lootTable rng lootTable.rollCount k with
      | none => none
      | some r => (dropsFrom container ship rng rest r.2).map fun later => r.1 ++ later

/-- The hook `ShipDestroyed`: the drops made for the configured loot tables. -/
def ShipDestroyed (lootTables : List LootTable) (lootDropContainerHashed : Nat) (ship : Ship)
    (rng : Nat → Nat) : Option (List Drop) :=
  dropsFrom lootDropContainerHashed ship rng lootTables 0

/-- The table applies to the ship: its trigger item is aboard and it applies to the kind of
the ship. -/
def applies (lootTable : LootTable) (ship : Ship) : Bool :=
  CheckForItem ship lootTable.triggerItemHashed &&
    ((ship.isPlayer && lootTable.applyToPlayers) || (!ship.isPlayer && lootTable.applyToNpcs))

/-- A table triggered by item 7 that no sample ship carries. -/
def absentTable : LootTable :=
  { rollCount := 1, applyToPlayers := true, applyToNpcs := true, triggerItem := "trigger_a"
    triggerItemHashed := 7
    dropWeights := [{ weighting := 1, item := "scrap", itemHashed := 70, dropCount := 1 }] }

/-- A table triggered by item 8, applying to NPCs, with two rolls over one item. -/
def presentTable : LootTable :=
  { rollCount := 2, applyToPlayers := false, applyToNpcs := true, triggerItem := "trigger_b"
    triggerItemHashed := 8
    dropWeights := [{ weighting := 1, item := "gold", itemHashed := 80, dropCount := 3 }] }

/-- An NPC ship carrying item 8. -/
def npcShip : Ship :=
  { equipment := [8], isPlayer := false, system := 2, owner := 0 }

/-- The drop of the table `presentTable` on the sample ship. -/
def goldDrop : Drop :=
  { system := 2, container := 99, itemHashed := 80, dropCount := 3, owner := 0 }

end LootTables

/-!
# Daily Tasks plugin: resetting tasks and rewards

A shallow embedding of `RandomNumber`, `RandomIdKey`, `GenerateReward`, `ItemPurchased`,
`GenerateDailyTask` and `UserCmdResetDailyTasks` of
`src/plugins/daily_tasks/DailyTasks.cpp`. The type declarations (`DailyTasks.hpp`) are not
part of the sources at hand: integers are `Int`, identifiers `Nat`, floats exact rationals,
and each `std::map` is a list of entries in the order of its keys. The state is that of one
account: its task list and its entry in `tasksReset`. The answer `none` of a function stands
for undefined behaviour of the C++ code (a draw from an empty pool, a read outside a
vector).
-/

namespace DailyTasks

/-- The kinds of task. -/
inductive TaskType
  | GetItem
  | KillNpc
  | KillPlayer
  | SellItem
deriving DecidableEq

/-- The type `Task`. -/
structure Task where
  taskType : TaskType
  quantity : Int
  itemTarget : Nat
  baseTarget : Nat
  npcFactionTarget : Nat
  taskDescription : String
  isCompleted : Bool
  setTime : Int
  quantityCompleted : Int
deriving DecidableEq

/-- The fields of `Config` that the embedded functions read. -/
structure Config where
  taskQuantity : Int
  minCreditsReward : Int
  maxCreditsReward : Int
  taskPlayerKillTargets : List Int
  resetTime : Int
deriving DecidableEq

/-- The plugin state, for one account: `tasks` is `accountTasks[account].tasks` and
`tasksReset` is `tasksReset[account]`. -/
structure Global where
  config : Config
  taskTypePool : List TaskType
  itemRewardPool : List (Nat × List Int)
  taskTradeItemTargets : List (Nat × List Int)
  taskItemAcquisitionTargets : List (Nat × List Int)
  taskNpcKillTargets : List (Nat × List Int)
  taskTradeBaseTargets : List Nat
  goodList : List (Nat × ℚ)
  tasks : List Task
  tasksReset : Bool
deriving DecidableEq

/-- What the host answers: the names used in the descriptions, the clock, the raw draws of
the engine of `RandomNumber`. -/
structure Host where
  itemName : Nat → String
  groupName : Nat → String
  baseName : Nat → String
  now : Int
  rng : Nat → Nat

/-- The function `RandomNumber(min, max)` (lines 180-186): a value of the closed range
`[min, max]` determined by one raw draw. For `max < min` the C++ behaviour is undefined,
which is the answer `none`. -/
def RandomNumber (min max : Int) (raw : Nat) : Option Int :=
  if max < min then none else some (min + ((raw : Int) % (max - min + 1)))

/-- The function `RandomIdKey` (lines 189-195): the key at the drawn position of the map. -/
def RandomIdKey (map : List (Nat × List Int)) (raw : Nat) : Option Nat :=
  (RandomNumber 0 ((map.length : Int) - 1) raw).bind fun index =>
    (map[index.toNat]?).map (fun entry => entry.1)

/-- The value of a map at a key, as `std::map::at`. -/
def lookup (map : List (Nat × List Int)) (key : Nat) : Option (List Int) :=
  (map.find? (fun entry => entry.1 == key)).map (fun entry => entry.2)

/-- A quantity drawn between the first two entries of the vector stored at `key`. -/
def drawQuantity (map : List (Nat × List Int)) (key : Nat) (raw : Nat) : Option Int :=
  (lookup map key).bind fun range =>
    (range[0]?).bind fun lo => (range[1]?).bind fun hi => RandomNumber lo hi raw

/-- C++ conversion `static_cast<int>(x)` of a float: truncation toward zero. -/
def toInt (q : ℚ) : Int :=
  Int.tdiv q.num (q.den : Int)

/-- What `GenerateReward` hands out: the credits given to `AddCash`, the item, the
quantity given to `AddCargo` (`none` when `AddCargo` is not called), and the rolled credit
reward, rolled item quantity and price it started from. -/
structure Reward where
  credits : Int
  item : Nat
  cargo : Option Int
  creditReward : Int
  rolledQuantity : Int
  price : ℚ
deriving DecidableEq

/-- The function `GenerateReward` (lines 222-246), reading the raw draws from position
`k`. The price is `goodList[itemReward]`, 0 when the map has no entry. -/
def GenerateReward (global : Global) (rng : Nat → Nat) (k : Nat) (holdSize : ℚ) :
    Option Reward :=
  (RandomNumber global.config.minCreditsReward global.config.maxCreditsReward
    (rng k)).bind fun creditReward =>
  (RandomIdKey global.itemRewardPool (rng (k + 1))).bind fun itemReward =>
  (drawQuantity global.itemRewardPool itemReward (rng (k + 2))).map fun rolled =>
    let price : ℚ :=
      ((global.goodList.find? (fun entry => entry.1 == itemReward)).map
        (fun entry => entry.2)).getD 0
    let surplusCreditReward : Int :=
      if rolled > toInt holdSize then ((toInt holdSize - rolled) * -1) * toInt price else 0
    let itemQuantity : Int := if rolled > toInt holdSize then toInt holdSize else rolled
    { credits := creditReward + surplusCreditReward
      item := itemReward
      cargo := if itemQuantity > 0 then some itemQuantity else none
      creditReward := creditReward
      rolledQuantity := rolled
      price := price }

/-- The quantity of the item that the player is granted: what `AddCargo` is given, 0 when
it is not called. -/
def Reward.granted (reward : Reward) : Int :=
  reward.cargo.getD 0

/-- The loop of `ItemPurchased` (lines 345-369) over the tasks of the account, reading the
raw draws from position `k`: the tasks afterwards and the rewards handed out. -/
def purchaseLoop (global : Global) (rng : Nat → Nat) (goodId : Nat) (count : Int)
    (base : Nat) (remainingHoldSize : ℚ) : List Task → Nat → Option (List Task × List Reward)
  | [], _ => some ([], [])
  | task :: rest, k =>
    if task.isCompleted then
      (purchaseLoop global rng goodId count base remainingHoldSize rest k).map
        fun r => (task :: r.1, r.2)
    else if task.taskType == TaskType.GetItem && task.itemTarget == goodId then
      let progressed := { task with quantityCompleted := task.quantityCompleted + count }
      if progressed.quantityCompleted ≥ progressed.quantity then
        (GenerateReward global rng k (remainingHoldSize - (count : ℚ))).bind fun reward =>
          (purchaseLoop global rng goodId count base remainingHoldSize rest (k + 3)).map
            fun r => ({ progressed with isCompleted := true } :: r.1, reward :: r.2)
      else
        (purchaseLoop global rng goodId count base remainingHoldSize rest k).map
          fun r => (progressed :: r.1, r.2)
    else if task.taskType == TaskType.SellItem && task.baseTarget == base &&
        task.itemTarget == goodId then
      let clamped := { task with
        quantityCompleted := max 0 (min (task.quantityCompleted - count) task.quantity) }
      (purchaseLoop global rng goodId count base remainingHoldSize rest k).map
        fun r => (clamped :: r.1, r.2)
    else
      (purchaseLoop global rng goodId count base remainingHoldSize rest k).map
        fun r => (task :: r.1, r.2)

/-- The hook `ItemPurchased` (lines 339-370): the state afterwards and the rewards handed
out. `remainingHoldSize` is the answer of `GetRemainingHoldSize`. -/
def ItemPurchased (global : Global) (rng : Nat → Nat) (goodId : Nat) (count : Int)
    (base : Nat) (remainingHoldSize : ℚ) : Option (Global × List Reward) :=
  (purchaseLoop global rng goodId count base remainingHoldSize global.tasks 0).map
    fun r => ({ global with tasks := r.1 }, r.2)

/-- The function `GenerateDailyTask` (lines 372-478), reading the raw draws from position
`k`: the task appended to the list of the account and the number of draws consumed. -/
def GenerateDailyTask (global : Global) (host : Host) (k : Nat) : Option (Task × Nat) :=
  let blank : Task :=
    { taskType := TaskType.GetItem, quantity := 0, itemTarget := 0, baseTarget := 0
      npcFactionTarget := 0, taskDescription := "", isCompleted := false
      setTime := host.now, quantityCompleted := 0 }
  (RandomNumber 0 ((global.taskTypePool.length : Int) - 1) (host.rng k)).bind fun index =>
  (global.taskTypePool[index.toNat]?).bind fun randomTask =>
  match randomTask with
  | TaskType.GetItem =>
    (RandomIdKey global.taskItemAcquisitionTargets (host.rng (k + 1))).bind fun target =>
    (drawQuantity global.taskItemAcquisitionTargets target (host.rng (k + 2))).map fun n =>
      ({ blank with
          taskType := TaskType.GetItem, itemTarget := target, quantity := n
          taskDescription := "Buy " ++ toString n ++ " units of " ++ host.itemName target ++ "." },
        3)
  | TaskType.KillNpc =>
    (RandomIdKey global.taskNpcKillTargets (host.rng (k + 1))).bind fun target =>
    (drawQuantity global.taskNpcKillTargets target (host.rng (k + 2))).map fun n =>
      ({ blank with
          taskType := TaskType.KillNpc, npcFactionTarget := target, quantity := n
          taskDescription := "Destroy " ++ toString n ++ " ships belonging to the " ++
            host.groupName target ++ "." },
        3)
  | TaskType.KillPlayer =>
    (global.config.taskPlayerKillTargets[0]?).bind fun lo =>
    (global.config.taskPlayerKillTargets[1]?).bind fun hi =>
    (RandomNumber lo hi (host.rng (k + 1))).map fun n =>
      ({ blank with
          taskType := TaskType.KillPlayer, quantity := n
          taskDescription := "Destroy " ++ toString n ++ " player ships." },
        2)
  | TaskType.SellItem =>
    (RandomNumber 0 ((global.taskTradeBaseTargets.length : Int) - 1)
      (host.rng (k + 1))).bind fun baseIndex =>
    (global.taskTradeBaseTargets[baseIndex.toNat]?).bind fun base =>
    (RandomIdKey global.taskTradeItemTargets (host.rng (k + 2))).bind fun target =>
    (drawQuantity global.taskTradeItemTargets target (host.rng (k + 3))).map fun n =>
      ({ blank with
          taskType := TaskType.SellItem, baseTarget := base, itemTarget := target
          quantity := n
          taskDescription := "Sell " ++ toString n ++ " units of " ++ host.itemName target ++
            " at " ++ host.baseName base ++ "." },
        4)

/-- The loop `for (int i = 0; i < taskQuantity; i++) GenerateDailyTask(account)` with
`left` iterations to go: the tasks appended. -/
def generateTasks (global : Global) (host : Host) : Nat → Nat → Option (List Task)
  | 0, _ => some []
  | left + 1, k =>
    (GenerateDailyTask global host k).bind fun made =>
      (generateTasks global host left (k + made.2)).map fun later => made.1 :: later

/-- The return points of `UserCmdResetDailyTasks`. -/
inductive ResetReply
  | completedToday
  | tasksReset
  | alreadyReset
deriving DecidableEq

/-- The command `/resettasks`, `UserCmdResetDailyTasks` (lines 569-602). -/
def UserCmdResetDailyTasks (global : Global) (host : Host) : Option (Global × ResetReply) :=
  if global.tasks.any (fun tasks => tasks.isCompleted == true) then
    some (global, ResetReply.completedToday)
  else if global.tasksReset == false then
    (generateTasks global host global.config.taskQuantity.toNat 0).map fun made =>
      ({ global with tasks := made, tasksReset := true }, ResetReply.tasksReset)
  else some (global, ResetReply.alreadyReset)

/-- Successive `/resettasks` commands of the account, with nothing in between: the state
at the end and the return points. -/
def resetRepeatedly : Global → List Host → Option (Global × List ResetReply)
  | global, [] => some (global, [])
  | global, host :: rest =>
    (UserCmdResetDailyTasks global host).bind fun r =>
      (resetRepeatedly r.1 rest).map fun later => (later.1, r.2 :: later.2)

/-- A configuration with player-kill tasks only, two tasks per account, a reward of 5000
credits and ten units of item 40, whose base price is 100. -/
def sampleGlobal : Global :=
  { config :=
      { taskQuantity := 2, minCreditsReward := 5000, maxCreditsReward := 5000
        taskPlayerKillTargets := [1, 3], resetTime := 12 }
    taskTypePool := [TaskType.KillPlayer]
    itemRewardPool := [(40, [10, 10])]
    taskTradeItemTargets := []
    taskItemAcquisitionTargets := [(40, [5, 5])]
    taskNpcKillTargets := []
    taskTradeBaseTargets := []
    goodList := [(40, 100)]
    tasks := []
    tasksReset := false }

/-- A host whose raw draws are all 0, at time 1000. -/
def sampleHost : Host :=
  { itemName := fun _ => "Diamonds", groupName := fun _ => "Outcasts"
    baseName := fun _ => "Planet Manhattan", now := 1000, rng := fun _ => 0 }

/-- A task to buy 5 units of item 40, not yet started. -/
def buyTask : Task :=
  { taskType := TaskType.GetItem, quantity := 5, itemTarget := 40, baseTarget := 0
    npcFactionTarget := 0, taskDescription := "Buy 5 units of Diamonds.", isCompleted := false
    setTime := 1000, quantityCompleted := 0 }

end DailyTasks

/-!
# Warehouse plugin

Embedding of `src/plugins/warehouse/Main.cpp`: the four user commands that list and move
items. The SQL functions (`GetAllItemsOnBase`, `RemoveItem`, `GetOrAddItem`) are not part of
the sources at hand; their answers are inputs.
-/

namespace Warehouse

/-- An entry of the cargo list that `Hk::Player::EnumCargo` returns. -/
structure CARGO_INFO where
  iId : Nat
  iArchId : Nat
  iCount : Int
  bMounted : Bool
  fStatus : ℚ
deriving DecidableEq

/-- A stored item as `GetAllItemsOnBase` returns it. -/
structure WareHouseItem where
  id : Nat
  equipArchId : Nat
  quantity : Int
deriving DecidableEq

/-- The fields of an equipment archetype that the commands read. -/
structure Equipment where
  iIdsName : Nat
  fVolume : ℚ
deriving DecidableEq

/-- The two fees of the configuration. -/
structure Config where
  costPerStackWithdraw : Nat
  costPerStackStore : Nat
deriving DecidableEq

/-- What the host answers to the commands. -/
structure Host where
  /-- The value `Hk::Player::GetCash(client).value()`. -/
  cash : Nat
  /-- The function `Archetype::GetEquipment`; `none` is the null pointer. -/
  getEquipment : Nat → Option Equipment
  /-- The remaining hold size that `EnumCargo` reports. -/
  remainingCargo : Int
  /-- The quantity that `RemoveItem(id, player, count)` reports as withdrawn. -/
  removeItem : Nat → Int → Int

/-- The calls that change something. -/
inductive Call
  | RemoveCash (amount : Nat)
  | RemoveCargo (iId : Nat) (count : Int)
  | AddCargo (archId : Nat) (count : Int)
  | GetOrAddItem (archId : Nat) (count : Int)
  | RemoveItem (id : Nat) (count : Int)
  | SaveChar
deriving DecidableEq

/-- The texts that the two moving commands print. -/
inductive Reply
  | invalidItemNumber
  | invalidItemQuantity
  | notEnoughCredits (fee : Nat)
  | itemDoesNotExist
  | requestDenied
  | invalidItemId
  | stored (itemCount : Int)
  | withdrawn (idsName : Nat) (withdrawnQuantity : Int)
deriving DecidableEq

/-- A line `index) name xcount` of a listing, kept with the item it was printed for. -/
structure Listed (α : Type) where
  index : Nat
  item : α
deriving DecidableEq

/-- The test `info.bMounted || info.fStatus < 1.f` of lines 40 and 87. -/
def skipped (info : CARGO_INFO) : Bool :=
  info.bMounted || decide (info.fStatus < 1)

/-- The loop of `UserCmdGetItems` (lines 85-94), started with the counter at `index`. -/
def listLoop (index : Nat) : List CARGO_INFO → List (Listed CARGO_INFO)
  | [] => []
  | info :: rest =>
    if skipped info then listLoop index rest
    else { index := index + 1, item := info } :: listLoop (index + 1) rest

/-- The function `UserCmdGetItems` (lines 79-94), the command `/warehouse list`: the lines
it prints for the cargo list. -/
def UserCmdGetItems (cargo : List CARGO_INFO) : List (Listed CARGO_INFO) :=
  listLoop 0 cargo

/-- The function `UserCmdStoreItem` (lines 24-77), the command `/warehouse store`.
`databaseItemId` is the unsigned value of the first parameter and `count` the value of the
second one. -/
def UserCmdStoreItem (config : Config) (host : Host) (cargo : List CARGO_INFO)
    (databaseItemId : Nat) (count : Int) : Reply × List Call :=
  if databaseItemId == 0 then (Reply.invalidItemNumber, [])
  else
    let filteredCargo := cargo.filter (fun info => !skipped info)
    let itemCount := max 1 count
    if databaseItemId > filteredCargo.length then (Reply.invalidItemNumber, [])
    else
      match filteredCargo[databaseItemId - 1]? with
      | none => (Reply.invalidItemNumber, [])
      | some item =>
        if itemCount > item.iCount || itemCount ≤ 0 then (Reply.invalidItemQuantity, [])
        else if host.cash < config.costPerStackStore then
          (Reply.notEnoughCredits config.costPerStackStore, [])
        else
          (Reply.stored itemCount,
            [ Call.RemoveCash config.costPerStackStore, Call.RemoveCargo item.iId itemCount,
              Call.GetOrAddItem item.iArchId itemCount, Call.SaveChar ])

/-- The loop of `UserCmdGetWarehouseItems` (lines 108-119), started with the counter at
`index`: an item whose archetype is missing prints no line and leaves the counter. -/
def storedLoop (host : Host) (index : Nat) : List WareHouseItem → List (Listed WareHouseItem)
  | [] => []
  | info :: rest =>
    match host.getEquipment info.equipArchId with
    | none => storedLoop host index rest
    | some _ => { index := index + 1, item := info } :: storedLoop host (index + 1) rest

/-- The function `UserCmdGetWarehouseItems` (lines 95-120), the command
`/warehouse liststored`: the numbered lines it prints for the stored items `itemList`.
For an empty list it prints one unnumbered sentence instead. -/
def UserCmdGetWarehouseItems (host : Host) (itemList : List WareHouseItem) :
    List (Listed WareHouseItem) :=
  storedLoop host 0 itemList

/-- The function `UserCmdWithdrawItem` (lines 122-186), the command `/warehouse withdraw`.
`itemId` is the unsigned value of the first parameter and `count` the value of the second
one. -/
def UserCmdWithdrawItem (config : Config) (host : Host) (itemList : List WareHouseItem)
    (itemId : Nat) (count : Int) : Reply × List Call :=
  if itemId == 0 then (Reply.invalidItemNumber, [])
  else
    let itemCount := max 1 count
    if host.cash < config.costPerStackWithdraw then
      (Reply.notEnoughCredits config.costPerStackWithdraw, [])
    else if itemId > itemList.length then (Reply.invalidItemNumber, [])
    else
      match itemList[itemId - 1]? with
      | none => (Reply.invalidItemNumber, [])
      | some warehouseItem =>
        match host.getEquipment warehouseItem.equipArchId with
        | none => (Reply.itemDoesNotExist, [])
        | some itemArch =>
          if itemArch.fVolume * (itemCount : ℚ) ≥ (host.remainingCargo : ℚ) then
            (Reply.requestDenied, [])
          else
            let withdrawnQuantity := host.removeItem warehouseItem.id itemCount
            if withdrawnQuantity == 0 then
              (Reply.invalidItemId, [Call.RemoveItem warehouseItem.id itemCount])
            else
              (Reply.withdrawn itemArch.iIdsName withdrawnQuantity,
                [ Call.RemoveItem warehouseItem.id itemCount,
                  Call.AddCargo warehouseItem.equipArchId withdrawnQuantity,
                  Call.RemoveCash config.costPerStackWithdraw, Call.SaveChar ])

/-! ## Sample data -/

/-- Fees of 100 credits each. -/
def sampleConfig : Config :=
  { costPerStackWithdraw := 100, costPerStackStore := 100 }

/-- A host that knows the archetypes 2 and 3 (of volume 1) and no other, with 1000 credits,
50 units of free hold, and a store that hands out what is asked for. -/
def sampleHost : Host :=
  { cash := 1000
    getEquipment := fun archId =>
      if archId = 2 then some { iIdsName := 202, fVolume := 1 }
      else if archId = 3 then some { iIdsName := 203, fVolume := 1 }
      else none
    remainingCargo := 50
    removeItem := fun _ itemCount => itemCount }

/-- A stored item whose archetype the host no longer knows. -/
def staleItem : WareHouseItem :=
  { id := 11, equipArchId := 1, quantity := 5 }

/-- A stored item of archetype 2. -/
def secondItem : WareHouseItem :=
  { id := 12, equipArchId := 2, quantity := 5 }

/-- A stored item of archetype 3. -/
def thirdItem : WareHouseItem :=
  { id := 13, equipArchId := 3, quantity := 5 }

/-- A cargo list with a mounted item between two loose ones. -/
def sampleCargo : List CARGO_INFO :=
  [ { iId := 1, iArchId := 2, iCount := 5, bMounted := false, fStatus := 1 },
    { iId := 2, iArchId := 7, iCount := 1, bMounted := true, fStatus := 1 },
    { iId := 3, iArchId := 3, iCount := 4, bMounted := false, fStatus := 1 } ]

end Warehouse

namespace Triggers

/-! ## Theorems -/

/-- A request that reaches a group runs the cooldown check, then the in-use check, then
the rest of the handler. -/
theorem UserCmd_of_reachesGroup (global : Global) (env : Env) (target i : Nat)
    (group : TerminalGroup) (h : reachesGroup global env target i group) :
    UserCmdStartTerminalInteraction global env =
      let inRange :=
        clientIsInRangeOfSolar env target global.config.terminalInitiateRadiusInMeters
      if env.nowAtCheck ≤ group.lastActivatedTime + group.cooldownTimeInSeconds then
        some { global := global, reply := Reply.onCooldown
               calls := inRange.2 ++ [Call.PrintUserCmdText Message.onCooldown] }
      else if group.useInProgress then
        some { global := global, reply := Reply.alreadyInUse
               calls := inRange.2 ++ [Call.PrintUserCmdText Message.alreadyInUse] }
      else interact global env target i group (env.action == "use") inRange.2 := by
  obtain ⟨hActive, hShip, hTarget, hAction, hRange, hFind⟩ := h
  obtain ⟨ship, hShip2⟩ := Option.isSome_iff_exists.mp hShip
  have hValid : (!(env.action == "use") && env.action != "hack") = false := by
    rcases hAction with h | h <;> simp [h]
  unfold UserCmdStartTerminalInteraction
  simp only [hActive, hShip2, hTarget, hValid, hRange, hFind]
  simp

/-- The search returns a group together with its own position in the list. -/
theorem findTerminalGroup_getElem (createID : String → Nat) (target : Nat)
    (groups : List TerminalGroup) (i : Nat) (group : TerminalGroup)
    (h : findTerminalGroup createID target groups = some (i, group)) :
    groups[i]? = some group := by
  induction groups generalizing i with
  | nil => simp [findTerminalGroup] at h
  | cons g rest ih =>
    unfold findTerminalGroup at h
    split at h
    · simp only [Option.some.injEq, Prod.mk.injEq] at h
      obtain ⟨rfl, rfl⟩ := h
      simp
    · cases hrest : findTerminalGroup createID target rest with
      | none => simp [hrest] at h
      | some p =>
        simp only [hrest, Option.map_some', Option.some.injEq, Prod.mk.injEq] at h
        obtain ⟨rfl, rfl⟩ := h
        simpa using ih p.1 (by simp [hrest])

/-! ### The draws of GetRandomNumber and the hostile spawn loop -/

/-- For `min ≤ max` the draw is defined and is `min` plus the raw draw reduced to the size
of the range. -/
theorem GetRandomNumber_of_le (min max : Int) (raw : Nat) (h : min ≤ max) :
    GetRandomNumber min max raw = some (min + (raw : Int) % (max - min + 1)) := by
  unfold GetRandomNumber
  rw [if_neg (not_lt.mpr h)]

/-- Every value of `GetRandomNumber` lies in the closed range `[min, max]`. -/
theorem GetRandomNumber_mem_range (min max : Int) (raw : Nat) (v : Int)
    (h : GetRandomNumber min max raw = some v) : min ≤ v ∧ v ≤ max := by
  unfold GetRandomNumber at h
  split_ifs at h with hlt
  simp only [Option.some.injEq] at h
  have hpos : 0 < max - min + 1 := by omega
  have h1 := Int.emod_nonneg (raw : Int) (ne_of_gt hpos)
  have h2 := Int.emod_lt_of_pos (raw : Int) hpos
  omega

/-- One round of the hostile spawn loop, with the draws whose ranges are constants written
out: the three offsets are always defined, and so is the kind index, which lies between 0
and the length of `hostileHackNpcs`, both included. -/
theorem spawnLoop_step (env : Env) (group : TerminalGroup) (fuel i : Nat) (st : SpawnLoop) :
    spawnLoop env group (fuel + 1) i st =
      match GetRandomNumber group.minHostileHackHostileNpcs group.maxHostileHackHostileNpcs
          (env.rng st.draws) with
      | none => none
      | some bound =>
        if (i : Int) < bound then
          match group.hostileHackNpcs[((0 : Int) + (env.rng (st.draws + 4) : Int) %
              ((group.hostileHackNpcs.length : Int) - 0 + 1)).toNat]? with
          | none => none
          | some kind =>
            spawnLoop env group fuel (i + 1)
              { spawned := st.spawned ++
                  [{ spaceId := env.createNpc kind
                        { x := env.clientPos.x +
                            (((-2000 : Int) + (env.rng (st.draws + 1) : Int) %
                              (2000 - (-2000) + 1) : Int) : ℚ)
                          y := env.clientPos.y +
                            (((-2000 : Int) + (env.rng (st.draws + 2) : Int) %
                              (2000 - (-2000) + 1) : Int) : ℚ)
                          z := env.clientPos.z +
                            (((-2000 : Int) + (env.rng (st.draws + 3) : Int) %
                              (2000 - (-2000) + 1) : Int) : ℚ) }
                        env.clientSystem
                     spawnTime := env.nowAtSpawn i }]
                calls := st.calls ++
                  [Call.CreateNpc kind
                    { x := env.clientPos.x +
                        (((-2000 : Int) + (env.rng (st.draws + 1) : Int) %
                          (2000 - (-2000) + 1) : Int) : ℚ)
                      y := env.clientPos.y +
                        (((-2000 : Int) + (env.rng (st.draws + 2) : Int) %
                          (2000 - (-2000) + 1) : Int) : ℚ)
                      z := env.clientPos.z +
                        (((-2000 : Int) + (env.rng (st.draws + 3) : Int) %
                          (2000 - (-2000) + 1) : Int) : ℚ) }
                    env.clientSystem]
                draws := st.draws + 5 }
        else some { st with draws := st.draws + 1 } := by
  rw [spawnLoop]
  simp only [GetRandomNumber_of_le (-2000) 2000 _ (by decide),
    GetRandomNumber_of_le 0 (group.hostileHackNpcs.length : Int) _ (Int.ofNat_nonneg _)]

/-- The bound on the iterations of the hostile spawn loop is never what ends it: once the
bound is at least `maxHostileHackHostileNpcs - i`, a larger bound gives the same run. -/
theorem spawnLoop_bound_irrelevant (env : Env) (group : TerminalGroup) (fuel i : Nat)
    (st : SpawnLoop) (h : group.maxHostileHackHostileNpcs.toNat ≤ fuel + i) :
    spawnLoop env group (fuel + 1) i st = spawnLoop env group fuel i st := by
  induction fuel generalizing i st with
  | zero =>
    rw [spawnLoop_step, spawnLoop]
    cases hb : GetRandomNumber group.minHostileHackHostileNpcs
        group.maxHostileHackHostileNpcs (env.rng st.draws) with
    | none => rfl
    | some bound =>
      have hle := (GetRandomNumber_mem_range _ _ _ _ hb).2
      have hnot : ¬ ((i : Int) < bound) := by omega
      simp only [hnot, if_false]
  | succ n ih =>
    rw [spawnLoop_step, spawnLoop_step]
    cases hb : GetRandomNumber group.minHostileHackHostileNpcs
        group.maxHostileHackHostileNpcs (env.rng st.draws) with
    | none => rfl
    | some bound =>
      dsimp only
      split_ifs with hlt
      · split
        · rfl
        · exact ih (i + 1) _ (by omega)
      · rfl

/-- A defined run of the hostile spawn loop, run with enough iterations from `i`, ends with
the loop variable at least `min`, and at most `max` if it started there, having appended
one object per iteration; the range of the spawn count was not empty. -/
theorem spawnLoop_count (env : Env) (group : TerminalGroup) (fuel i : Nat)
    (st out : SpawnLoop) (hout : spawnLoop env group fuel i st = some out)
    (hf : group.maxHostileHackHostileNpcs.toNat ≤ fuel + i) :
    ∃ n, out.spawned.length = st.spawned.length + n ∧
      group.minHostileHackHostileNpcs ≤ group.maxHostileHackHostileNpcs ∧
      group.minHostileHackHostileNpcs ≤ ((i + n : Nat) : Int) ∧
      ((i : Int) ≤ group.maxHostileHackHostileNpcs →
        ((i + n : Nat) : Int) ≤ group.maxHostileHackHostileNpcs) := by
  induction fuel generalizing i st with
  | zero =>
    rw [spawnLoop] at hout
    cases hb : GetRandomNumber group.minHostileHackHostileNpcs
        group.maxHostileHackHostileNpcs (env.rng st.draws) with
    | none => simp [hb] at hout
    | some bound =>
      have hrange := GetRandomNumber_mem_range _ _ _ _ hb
      simp only [hb, Option.some.injEq] at hout
      subst hout
      refine ⟨0, rfl, by omega, ?_, fun hi => by simpa using hi⟩
      simp only [Nat.add_zero]; omega
  | succ k ih =>
    rw [spawnLoop_step] at hout
    cases hb : GetRandomNumber group.minHostileHackHostileNpcs
        group.maxHostileHackHostileNpcs (env.rng st.draws) with
    | none => simp [hb] at hout
    | some bound =>
      have hrange := GetRandomNumber_mem_range _ _ _ _ hb
      simp only [hb] at hout
      split_ifs at hout with hlt
      · split at hout
        · simp at hout
        · obtain ⟨n, hlen, hle, hlo, hhi⟩ := ih (i + 1) _ hout (by omega)
          refine ⟨n + 1, ?_, hle, ?_, fun _ => ?_⟩
          · rw [hlen]
            simp
            omega
          · have : i + (n + 1) = i + 1 + n := by omega
            rw [this]; exact hlo
          · have : i + (n + 1) = i + 1 + n := by omega
            rw [this]
            exact hhi (by push_cast; omega)
      · simp only [Option.some.injEq] at hout
        subst hout
        refine ⟨0, rfl, by omega, ?_, fun hi => by simpa using hi⟩
        simp only [Nat.add_zero]; omega

/-- When the range of the spawn count is not empty and no kind index falls outside
`hostileHackNpcs`, the hostile spawn loop, run with enough iterations from `i`, is
defined. -/
theorem spawnLoop_defined (env : Env) (group : TerminalGroup)
    (hle : group.minHostileHackHostileNpcs ≤ group.maxHostileHackHostileNpcs)
    (hKinds : kindDrawsInRange env group) (fuel i : Nat) (st : SpawnLoop)
    (hd : st.draws = 5 * i + 1)
    (hf : group.maxHostileHackHostileNpcs.toNat ≤ fuel + i) :
    ∃ out, spawnLoop env group fuel i st = some out := by
  induction fuel generalizing i st with
  | zero =>
    exact ⟨{ st with draws := st.draws + 1 }, by
      rw [spawnLoop, GetRandomNumber_of_le _ _ _ hle]⟩
  | succ k ih =>
    have hb := GetRandomNumber_of_le group.minHostileHackHostileNpcs
      group.maxHostileHackHostileNpcs (env.rng st.draws) hle
    have hrange := GetRandomNumber_mem_range _ _ _ _ hb
    rw [spawnLoop_step, hb]
    dsimp only
    split_ifs with hlt
    · obtain ⟨index, hindex, hlt2⟩ := hKinds i (by omega)
      have hindex2 := GetRandomNumber_of_le 0 (group.hostileHackNpcs.length : Int)
        (env.rng (5 * i + 5)) (Int.ofNat_nonneg _)
      rw [hindex2] at hindex
      simp only [Option.some.injEq] at hindex
      have hpos := (GetRandomNumber_mem_range _ _ _ _ hindex2).1
      have hdraw : st.draws + 4 = 5 * i + 5 := by omega
      rw [hdraw, hindex]
      have hin : index.toNat < group.hostileHackNpcs.length := by
        rw [hindex] at hpos
        omega
      rw [List.getElem?_eq_getElem hin]
      dsimp only
      exact ih (i + 1) _ (by simp only; omega) (by omega)
    · exact ⟨_, rfl⟩

/-- Every call made by a defined run of the hostile spawn loop is the creation of an NPC. -/
theorem spawnLoop_calls (env : Env) (group : TerminalGroup) (fuel i : Nat)
    (st out : SpawnLoop) (hout : spawnLoop env group fuel i st = some out)
    (c : Call) (hc : c ∈ out.calls) :
    c ∈ st.calls ∨ ∃ kind pos system, c = Call.CreateNpc kind pos system := by
  induction fuel generalizing i st with
  | zero =>
    rw [spawnLoop] at hout
    split at hout
    · simp at hout
    · simp only [Option.some.injEq] at hout
      subst hout
      exact Or.inl hc
  | succ k ih =>
    rw [spawnLoop_step] at hout
    split at hout
    · simp at hout
    · split_ifs at hout with hlt
      · split at hout
        · simp at hout
        · rcases ih _ _ hout with h | h
          · rcases List.mem_append.mp h with h | h
            · exact Or.inl h
            · simp only [List.mem_singleton] at h
              exact Or.inr ⟨_, _, _, h⟩
          · exact Or.inr h
      · simp only [Option.some.injEq] at hout
        subst hout
        exact Or.inl hc

/-- With well-formed draws the hostile spawn loop of the handler is defined. -/
theorem spawnHostileNpcs_defined (env : Env) (group : TerminalGroup)
    (hDef : spawnDrawsDefined env group) :
    ∃ loop, spawnHostileNpcs env group 1 = some loop :=
  spawnLoop_defined env group hDef.1 hDef.2 group.maxHostileHackHostileNpcs.toNat 0
    { spawned := [], calls := [], draws := 1 } rfl (by omega)

/-- Whenever the hostile spawn loop of the handler is defined, the number of objects it
appends lies between `min` and `max` (for `0 ≤ min`), and all its calls create an NPC. -/
theorem spawnHostileNpcs_spec (env : Env) (group : TerminalGroup) (loop : SpawnLoop)
    (hloop : spawnHostileNpcs env group 1 = some loop) :
    (0 ≤ group.minHostileHackHostileNpcs →
      group.minHostileHackHostileNpcs ≤ (loop.spawned.length : Int) ∧
      (loop.spawned.length : Int) ≤ group.maxHostileHackHostileNpcs) ∧
    ∀ c ∈ loop.calls, ∃ kind pos system, c = Call.CreateNpc kind pos system := by
  obtain ⟨n, hlen, hle, hlo, hhi⟩ := spawnLoop_count env group
    group.maxHostileHackHostileNpcs.toNat 0 { spawned := [], calls := [], draws := 1 } loop
    hloop (by omega)
  refine ⟨fun hmin => ?_, fun c hc => ?_⟩
  · simp only [List.length_nil, Nat.zero_add] at hlen hlo hhi
    rw [hlen]
    exact ⟨hlo, hhi (by push_cast; omega)⟩
  · rcases spawnLoop_calls env group _ _ _ loop hloop c hc with h | h
    · simp at h
    · exact h

/-! ### The handler after the group checks -/

/-- Whatever `interact` does, it leaves the plugin state alone unless it returns at the
last line. -/
theorem interact_global_of_rejected (global : Global) (env : Env) (target i : Nat)
    (group : TerminalGroup) (isLawful : Bool) (pre : List Call) (r : Result)
    (hr : interact global env target i group isLawful pre = some r)
    (h : r.reply ≠ Reply.started) : r.global = global := by
  unfold interact at hr
  dsimp only at hr
  repeat' split at hr
  all_goals first
    | (simp at hr; done)
    | (simp only [Option.some.injEq] at hr
       subst hr
       first | rfl | exact absurd rfl h)

/-- The roll of line 349 is always defined. -/
theorem roll_defined (raw : Nat) :
    GetRandomNumber 0 100 raw = some ((0 : Int) + (raw : Int) % (100 - 0 + 1)) :=
  GetRandomNumber_of_le 0 100 raw (by decide)

/-- A confirmed hack whose roll escalates, after the group checks: the outcome is that of
the hostile spawn loop, followed by the hostile attitude, the reputation change and the
activation; it is undefined exactly when the spawn loop is. -/
theorem interact_hack_escalated (global : Global) (env : Env) (target i : Nat)
    (group : TerminalGroup) (pre : List Call) (hConfirm : env.confirm = "confirm")
    (hEsc : escalates env group) :
    interact global env target i group false pre =
      (spawnHostileNpcs env group 1).map fun loop =>
        { global := global.setGroup i
            { group with
              activeHostileHackNpcs := group.activeHostileHackNpcs ++ loop.spawned
              useInProgress := true
              lastActivatedTime := env.nowAtActivation }
          reply := Reply.started
          calls :=
            pre ++ [Call.PlaySoundEffect "ui_begin_scan"] ++
            [Call.PrintLocalUserCmdText global.config.messageHackStartNotifyAll
              global.config.terminalNotifyAllRadiusInMeters] ++
            loop.calls ++
            [ Call.SetAttitude env.terminalReputation env.playerReputation (-9 / 10),
              Call.SetReputation env.playerReputation env.terminalAffiliation
                (env.rep - group.hackRepReduction),
              Call.PrintUserCmdText Message.hackDetected ] ++
            [ Call.PrintUserCmdText Message.remainWithin,
              Call.PlaySoundEffect "ui_new_story_star",
              Call.LightFuse global.config.shipActiveTerminalFuse,
              Call.SetRelativeHealth target (1 / 2) ] } := by
  obtain ⟨roll, hroll, hle⟩ := hEsc
  unfold interact
  simp only [hConfirm, hroll, hle, Bool.not_false, if_true, bne_self_eq_false,
    Bool.false_eq_true, if_false]
  cases spawnHostileNpcs env group 1 <;> rfl

/-- A confirmed hack whose roll does not escalate, after the group checks: the group is
reserved and nothing else of it changes. -/
theorem interact_hack_calm (global : Global) (env : Env) (target i : Nat)
    (group : TerminalGroup) (pre : List Call) (hConfirm : env.confirm = "confirm")
    (hCalm : ¬ escalates env group) :
    interact global env target i group false pre =
      some
        { global := global.setGroup i
            { group with useInProgress := true, lastActivatedTime := env.nowAtActivation }
          reply := Reply.started
          calls :=
            pre ++ [Call.PlaySoundEffect "ui_begin_scan"] ++
            [Call.PrintLocalUserCmdText global.config.messageHackStartNotifyAll
              global.config.terminalNotifyAllRadiusInMeters] ++
            [ Call.PrintUserCmdText Message.remainWithin,
              Call.PlaySoundEffect "ui_new_story_star",
              Call.LightFuse global.config.shipActiveTerminalFuse,
              Call.SetRelativeHealth target (1 / 2) ] } := by
  have hroll := roll_defined (env.rng 0)
  have hnot : ¬ ((0 : Int) + (env.rng 0 : Int) % (100 - 0 + 1) ≤
      truncToInt (group.hackHostileChance * 100)) := fun hle => hCalm ⟨_, hroll, hle⟩
  unfold interact
  simp only [hConfirm, hroll, hnot, Bool.not_false, if_true, bne_self_eq_false,
    Bool.false_eq_true, if_false]

/-- When the last checks pass, every result of `interact` is a return at the last line,
with `useInProgress` and `lastActivatedTime` written into the group at index `i`. -/
theorem interact_started (global : Global) (env : Env) (target i : Nat)
    (group : TerminalGroup) (pre : List Call)
    (h : passesLastChecks env group) (r : Result)
    (hr : interact global env target i group (env.action == "use") pre = some r) :
    ∃ g, r.global = global.setGroup i g ∧ r.reply = Reply.started ∧
      g.useInProgress = true ∧ g.lastActivatedTime = env.nowAtActivation := by
  obtain ⟨hConfirm, hLawful⟩ := h
  have hc : (env.confirm != "confirm") = false := by simp [hConfirm]
  by_cases hUse : env.action = "use"
  · obtain ⟨hRep, hCash⟩ := hLawful hUse
    unfold interact at hr
    simp only [hUse, hc, hRep, hCash, beq_self_eq_true, Bool.not_true, Bool.false_eq_true,
      if_false, Option.some.injEq] at hr
    subst hr
    exact ⟨_, rfl, rfl, rfl, rfl⟩
  · have hl : (env.action == "use") = false := by simp [hUse]
    rw [hl] at hr
    by_cases hEsc : escalates env group
    · rw [interact_hack_escalated global env target i group pre hConfirm hEsc] at hr
      cases hloop : spawnHostileNpcs env group 1 with
      | none => simp [hloop] at hr
      | some loop =>
        simp only [hloop, Option.map_some', Option.some.injEq] at hr
        subst hr
        exact ⟨_, rfl, rfl, rfl, rfl⟩
    · rw [interact_hack_calm global env target i group pre hConfirm hEsc] at hr
      simp only [Option.some.injEq] at hr
      subst hr
      exact ⟨_, rfl, rfl, rfl, rfl⟩

/-- When the last checks pass and the run is defined, `interact` returns. -/
theorem interact_defined (global : Global) (env : Env) (target i : Nat)
    (group : TerminalGroup) (pre : List Call)
    (hAction : env.action = "use" ∨ env.action = "hack")
    (h : passesLastChecks env group) (hDef : definedRun env group) :
    ∃ r, interact global env target i group (env.action == "use") pre = some r := by
  obtain ⟨hConfirm, hLawful⟩ := h
  have hc : (env.confirm != "confirm") = false := by simp [hConfirm]
  by_cases hUse : env.action = "use"
  · obtain ⟨hRep, hCash⟩ := hLawful hUse
    unfold interact
    simp [hUse, hc, hRep, hCash]
  · have hHack : env.action = "hack" := hAction.resolve_left hUse
    have hl : (env.action == "use") = false := by simp [hUse]
    rw [hl]
    by_cases hEsc : escalates env group
    · obtain ⟨loop, hloop⟩ := spawnHostileNpcs_defined env group (hDef hHack hEsc)
      rw [interact_hack_escalated global env target i group pre hConfirm hEsc, hloop]
      exact ⟨_, rfl⟩
    · rw [interact_hack_calm global env target i group pre hConfirm hEsc]
      exact ⟨_, rfl⟩

/-- Without the token `confirm`, `interact` returns, changes nothing and makes no call of
the hostile response. -/
theorem interact_unconfirmed (global : Global) (env : Env) (target i : Nat)
    (group : TerminalGroup) (isLawful : Bool) (pre : List Call)
    (hPre : ∀ c ∈ pre, c.isEscalation = false) (h : env.confirm ≠ "confirm") :
    ∃ r, interact global env target i group isLawful pre = some r ∧
      r.global = global ∧ r.reply ≠ Reply.started ∧
      ∀ c ∈ r.calls, c.isEscalation = false := by
  have hc : (env.confirm != "confirm") = true := by simp [h]
  have hMem : ∀ m : Message, ∀ c ∈ pre ++ [Call.PlaySoundEffect "ui_begin_scan"] ++
      [Call.PrintUserCmdText m], c.isEscalation = false := by
    intro m c hcall
    simp only [List.mem_append, List.mem_singleton] at hcall
    rcases hcall with (hcall | hcall) | hcall
    · exact hPre c hcall
    · subst hcall; rfl
    · subst hcall; rfl
  unfold interact
  cases isLawful
  · simp only [hc, Bool.not_false, if_true]
    exact ⟨_, rfl, rfl, by simp, hMem _⟩
  · simp only [hc, Bool.not_true, Bool.false_eq_true, if_false, if_true]
    exact ⟨_, rfl, rfl, by simp, hMem _⟩

/-- The texts printed by the range check are not calls of the hostile response. -/
theorem clientIsInRangeOfSolar_calls (env : Env) (solar : Nat) (distance : ℚ) :
    ∀ c ∈ (clientIsInRangeOfSolar env solar distance).2, c.isEscalation = false := by
  unfold clientIsInRangeOfSolar
  intro c hcall
  split at hcall
  · simp at hcall; subst hcall; rfl
  · split at hcall
    · simp at hcall; subst hcall; rfl
    · split_ifs at hcall <;> simp at hcall

/-- A request that passes every check runs `interact`. -/
theorem UserCmd_passing (global : Global) (env : Env) (target i : Nat)
    (group : TerminalGroup) (h : reachesGroup global env target i group)
    (hCool : ¬ onCooldown env group) (hUse : group.useInProgress = false) :
    UserCmdStartTerminalInteraction global env =
      interact global env target i group (env.action == "use")
        (clientIsInRangeOfSolar env target global.config.terminalInitiateRadiusInMeters).2 := by
  rw [UserCmd_of_reachesGroup global env target i group h]
  unfold onCooldown at hCool
  simp only [hCool, hUse, if_false, Bool.false_eq_true]

/-- Every result of a request that passes every check is a return at the last line, and
the plugin state afterwards is the one before with the group at index `i` replaced by a
group that is in use and was activated at the time read at activation. -/
theorem UserCmd_started (global : Global) (env : Env) (target i : Nat)
    (group : TerminalGroup) (h : reachesGroup global env target i group)
    (hCool : ¬ onCooldown env group) (hUse : group.useInProgress = false)
    (hLast : passesLastChecks env group) (r : Result)
    (hr : UserCmdStartTerminalInteraction global env = some r) :
    ∃ g, r.reply = Reply.started ∧ r.global = global.setGroup i g ∧
      g.useInProgress = true ∧ g.lastActivatedTime = env.nowAtActivation := by
  rw [UserCmd_passing global env target i group h hCool hUse] at hr
  obtain ⟨g, hGlobal, hReply, hInUse, hTime⟩ :=
    interact_started global env target i group _ hLast r hr
  exact ⟨g, hReply, hGlobal, hInUse, hTime⟩

/-- A request that passes every check, on a defined run, returns. -/
theorem UserCmd_defined (global : Global) (env : Env) (target i : Nat)
    (group : TerminalGroup) (h : reachesGroup global env target i group)
    (hCool : ¬ onCooldown env group) (hUse : group.useInProgress = false)
    (hLast : passesLastChecks env group) (hDef : definedRun env group) :
    ∃ r, UserCmdStartTerminalInteraction global env = some r := by
  rw [UserCmd_passing global env target i group h hCool hUse]
  exact interact_defined global env target i group _ h.2.2.2.1 hLast hDef

/-- Replacing the group at a valid index `i`: the entry `i` is the new group, the length
and every other entry are as before. -/
theorem setGroup_groups (global : Global) (i : Nat) (group g : TerminalGroup)
    (h : global.config.terminalGroups[i]? = some group) :
    (global.setGroup i g).config.terminalGroups[i]? = some g ∧
    (global.setGroup i g).config.terminalGroups.length = global.config.terminalGroups.length ∧
    ∀ j, j ≠ i →
      (global.setGroup i g).config.terminalGroups[j]? = global.config.terminalGroups[j]? := by
  have hi : i < global.config.terminalGroups.length := by
    rcases Nat.lt_or_ge i global.config.terminalGroups.length with hlt | hge
    · exact hlt
    · rw [List.getElem?_eq_none hge] at h
      exact absurd h (by simp)
  refine ⟨?_, ?_, ?_⟩
  · simp [Global.setGroup, hi]
  · simp [Global.setGroup]
  · intro j hj
    simp [Global.setGroup, List.getElem?_set_ne (Ne.symm hj)]

/-- The handler either returns at one of the rejections of lines 222-303, with the state
unchanged and printed texts as its only calls, or continues with `interact`. -/
theorem UserCmd_cases (global : Global) (env : Env) :
    (∃ r, UserCmdStartTerminalInteraction global env = some r ∧ r.global = global ∧
      r.reply ≠ Reply.started ∧ ∀ c ∈ r.calls, c.isEscalation = false) ∨
    ∃ target i group pre,
      UserCmdStartTerminalInteraction global env =
        interact global env target i group (env.action == "use") pre ∧
      ∀ c ∈ pre, c.isEscalation = false := by
  have hPrint : ∀ (pre : List Call) (m : Message), (∀ c ∈ pre, c.isEscalation = false) →
      ∀ c ∈ pre ++ [Call.PrintUserCmdText m], c.isEscalation = false := by
    intro pre m hPre c hc
    rcases List.mem_append.mp hc with hc | hc
    · exact hPre c hc
    · simp at hc; subst hc; rfl
  unfold UserCmdStartTerminalInteraction
  dsimp only
  repeat' split
  all_goals first
    | exact Or.inr ⟨_, _, _, _, rfl, clientIsInRangeOfSolar_calls _ _ _⟩
    | exact Or.inl ⟨_, rfl, rfl, by simp, hPrint _ _ (clientIsInRangeOfSolar_calls _ _ _)⟩
    | exact Or.inl ⟨_, rfl, rfl, by simp, hPrint [] _ (by simp)⟩

/-! ### Cooldown and in-use checks -/

/-- Claim C1, as stated, fails: the sample group is in use and its cooldown (until 1060) has
not elapsed at time 1030; the request passes the earlier checks and is rejected as on
cooldown, not as already in use. -/
theorem inUse_within_cooldown_reports_cooldown :
    reachesGroup (sampleGlobal busyGroup) (sampleEnv 1030 200 0) 16 0 busyGroup ∧
    busyGroup.useInProgress = true ∧
    (UserCmdStartTerminalInteraction (sampleGlobal busyGroup) (sampleEnv 1030 200 0)).map
      (fun r => r.reply) = some Reply.onCooldown ∧
    (UserCmdStartTerminalInteraction (sampleGlobal busyGroup) (sampleEnv 1030 200 0)).map
      (fun r => r.reply) ≠ some Reply.alreadyInUse := by
  refine ⟨⟨rfl, rfl, rfl, Or.inl rfl, ?_, ?_⟩, rfl, ?_, ?_⟩ <;> decide!

/-- Claim C1, amended: a request on a group with `useInProgress == true` that passes the
earlier checks is always rejected and changes nothing; the rejection is on-cooldown while
`now <= lastActivatedTime + cooldownTimeInSeconds` and already-in-use after that. -/
theorem inUse_rejected_cooldown_first (global : Global) (env : Env) (target i : Nat)
    (group : TerminalGroup) (h : reachesGroup global env target i group)
    (hUse : group.useInProgress = true) :
    ∃ r, UserCmdStartTerminalInteraction global env = some r ∧
      r.reply =
        (if env.nowAtCheck ≤ group.lastActivatedTime + group.cooldownTimeInSeconds
          then Reply.onCooldown else Reply.alreadyInUse) ∧
      r.global = global := by
  rw [UserCmd_of_reachesGroup global env target i group h]
  dsimp only
  split_ifs
  · exact ⟨_, rfl, rfl, rfl⟩
  · exact ⟨_, rfl, rfl, rfl⟩

/-- Witness of `inUse_rejected_cooldown_first`: the busy sample group at time 1061, after
its cooldown. -/
theorem inUse_rejected_cooldown_first_witness :
    reachesGroup (sampleGlobal busyGroup) (sampleEnv 1061 200 0) 16 0 busyGroup ∧
    busyGroup.useInProgress = true ∧
    (UserCmdStartTerminalInteraction (sampleGlobal busyGroup) (sampleEnv 1061 200 0)).map
      (fun r => r.reply) = some Reply.alreadyInUse ∧
    ∃ r, UserCmdStartTerminalInteraction (sampleGlobal busyGroup) (sampleEnv 1061 200 0) =
        some r ∧
      r.reply =
        (if (sampleEnv 1061 200 0).nowAtCheck ≤
            busyGroup.lastActivatedTime + busyGroup.cooldownTimeInSeconds
          then Reply.onCooldown else Reply.alreadyInUse) ∧
      r.global = sampleGlobal busyGroup :=
  ⟨⟨rfl, rfl, rfl, Or.inl rfl, by decide!, by decide!⟩, rfl, by decide!,
    inUse_rejected_cooldown_first (sampleGlobal busyGroup) (sampleEnv 1061 200 0) 16 0 busyGroup
      ⟨rfl, rfl, rfl, Or.inl rfl, by decide!, by decide!⟩ rfl⟩

/-- Claim C2: a request that passes the earlier checks at a time
`now < lastActivatedTime + cooldownTimeInSeconds` is rejected as on cooldown and the plugin
state, in particular the group, is unchanged. -/
theorem cooldown_rejects (global : Global) (env : Env) (target i : Nat)
    (group : TerminalGroup) (h : reachesGroup global env target i group)
    (hNow : env.nowAtCheck < group.lastActivatedTime + group.cooldownTimeInSeconds) :
    ∃ r, UserCmdStartTerminalInteraction global env = some r ∧
      r.reply = Reply.onCooldown ∧ r.global = global := by
  rw [UserCmd_of_reachesGroup global env target i group h]
  simp [le_of_lt hNow]

/-- Witness of `cooldown_rejects`: the sample group (cooldown until 1060) at time 1030. -/
theorem cooldown_rejects_witness :
    reachesGroup (sampleGlobal sampleGroup) (sampleEnv 1030 200 0) 16 0 sampleGroup ∧
    (sampleEnv 1030 200 0).nowAtCheck <
      sampleGroup.lastActivatedTime + sampleGroup.cooldownTimeInSeconds ∧
    ∃ r, UserCmdStartTerminalInteraction (sampleGlobal sampleGroup) (sampleEnv 1030 200 0) =
        some r ∧
      r.reply = Reply.onCooldown ∧ r.global = sampleGlobal sampleGroup :=
  ⟨⟨rfl, rfl, rfl, Or.inl rfl, by decide!, by decide!⟩, by decide,
    cooldown_rejects (sampleGlobal sampleGroup) (sampleEnv 1030 200 0) 16 0 sampleGroup
      ⟨rfl, rfl, rfl, Or.inl rfl, by decide!, by decide!⟩ (by decide)⟩

/-- The sample hack request, whose raw draws are all 0, draws the kind index 0 at every
iteration: the draws of its hostile spawn loop are well-formed on the sample group. -/
theorem sample_draws_defined (rep : ℚ) : spawnDrawsDefined (hackEnv rep) sampleGroup :=
  ⟨by decide, fun _ _ => ⟨0, by show GetRandomNumber 0 1 0 = some 0; decide, by decide⟩⟩

/-- The sample hack request reaches the sample group after its cooldown. -/
theorem sample_confirmedHack (rep : ℚ) :
    confirmedHack (sampleGlobal sampleGroup) (hackEnv rep) 16 0 sampleGroup :=
  ⟨⟨rfl, rfl, rfl, Or.inr rfl, by with_unfolding_all rfl, by with_unfolding_all rfl⟩,
    by show ¬ ((1061 : Int) ≤ 1000 + 60); decide, rfl, rfl, rfl⟩

/-- The roll of the sample hack request is 0 and escalates on the sample group, whose
hostile chance is 1. -/
theorem sample_escalates (rep : ℚ) : escalates (hackEnv rep) sampleGroup :=
  ⟨0, by show GetRandomNumber 0 100 0 = some 0; decide,
    by show (0 : Int) ≤ truncToInt ((1 : ℚ) * 100); decide!⟩

/-- Claim C3, as stated, fails: the sample group is not in use, the request is confirmed,
funded and in good standing, and it is made exactly at 1060 = 1000 + 60; it is rejected as
on cooldown and the group is not reserved. -/
theorem request_at_cooldown_end_is_rejected :
    reachesGroup (sampleGlobal sampleGroup) (sampleEnv 1060 200 0) 16 0 sampleGroup ∧
    sampleGroup.useInProgress = false ∧
    passesLastChecks (sampleEnv 1060 200 0) sampleGroup ∧
    (sampleEnv 1060 200 0).nowAtCheck =
      sampleGroup.lastActivatedTime + sampleGroup.cooldownTimeInSeconds ∧
    (UserCmdStartTerminalInteraction (sampleGlobal sampleGroup) (sampleEnv 1060 200 0)).map
      (fun r => r.reply) = some Reply.onCooldown ∧
    (UserCmdStartTerminalInteraction (sampleGlobal sampleGroup) (sampleEnv 1060 200 0)).map
      (fun r => r.global) = some (sampleGlobal sampleGroup) := by
  refine ⟨⟨rfl, rfl, rfl, Or.inl rfl, ?_, ?_⟩, rfl, ⟨rfl, fun _ => ⟨?_, ?_⟩⟩, ?_, ?_, ?_⟩ <;>
    decide!

/-- Claim C3, amended: for a group that is not in use and a confirmed request passing all
other checks, every result of the handler is the rejection as on cooldown at every time
`now <= lastActivatedTime + cooldownTimeInSeconds`, the end point included, and the return
at the last line at every later time, first at
`lastActivatedTime + cooldownTimeInSeconds + 1`; the group is reserved afterwards exactly in
the second case. The handler returns whenever the request is on cooldown or the run is
defined (for a hack whose roll escalates: the range of the spawn count is not empty and no
kind index is drawn outside `hostileHackNpcs`). -/
theorem cooldown_end_is_inclusive (global : Global) (env : Env) (target i : Nat)
    (group : TerminalGroup) (h : reachesGroup global env target i group)
    (hUse : group.useInProgress = false) (hLast : passesLastChecks env group) :
    (∀ r, UserCmdStartTerminalInteraction global env = some r →
      r.reply =
        (if env.nowAtCheck ≤ group.lastActivatedTime + group.cooldownTimeInSeconds
          then Reply.onCooldown else Reply.started) ∧
      (r.global.config.terminalGroups[i]?).map (fun g => g.useInProgress) =
        some (decide
          (group.lastActivatedTime + group.cooldownTimeInSeconds < env.nowAtCheck))) ∧
    ((¬ onCooldown env group → definedRun env group) →
      ∃ r, UserCmdStartTerminalInteraction global env = some r) := by
  have hGet := findTerminalGroup_getElem _ _ _ _ _ h.2.2.2.2.2
  by_cases hCool : env.nowAtCheck ≤ group.lastActivatedTime + group.cooldownTimeInSeconds
  · have hrun : UserCmdStartTerminalInteraction global env =
        some { global := global, reply := Reply.onCooldown
               calls := (clientIsInRangeOfSolar env target
                 global.config.terminalInitiateRadiusInMeters).2 ++
                 [Call.PrintUserCmdText Message.onCooldown] } := by
      rw [UserCmd_of_reachesGroup global env target i group h]
      simp [hCool]
    refine ⟨fun r hr => ?_, fun _ => ⟨_, hrun⟩⟩
    rw [hrun] at hr
    simp only [Option.some.injEq] at hr
    subst hr
    simp [hCool, hGet, hUse, not_lt.mpr hCool]
  · refine ⟨fun r hr => ?_,
      fun hDef => UserCmd_defined global env target i group h hCool hUse hLast (hDef hCool)⟩
    obtain ⟨g, hReply, hGlobal, hInUse, _⟩ :=
      UserCmd_started global env target i group h hCool hUse hLast r hr
    refine ⟨?_, ?_⟩
    · rw [hReply, if_neg hCool]
    · rw [hGlobal, (setGroup_groups global i group g hGet).1]
      simp [hInUse, not_le.mp hCool]

/-- Witness of `cooldown_end_is_inclusive`: the confirmed hack on the sample group one
second after the end of its cooldown, at 1061; its roll escalates and its draws are
well-formed. -/
theorem cooldown_end_is_inclusive_witness :
    reachesGroup (sampleGlobal sampleGroup) (hackEnv 0) 16 0 sampleGroup ∧
    sampleGroup.useInProgress = false ∧
    passesLastChecks (hackEnv 0) sampleGroup ∧
    escalates (hackEnv 0) sampleGroup ∧ spawnDrawsDefined (hackEnv 0) sampleGroup ∧
    ∃ r, UserCmdStartTerminalInteraction (sampleGlobal sampleGroup) (hackEnv 0) = some r ∧
      r.reply =
        (if (hackEnv 0).nowAtCheck ≤
            sampleGroup.lastActivatedTime + sampleGroup.cooldownTimeInSeconds
          then Reply.onCooldown else Reply.started) ∧
      (r.global.config.terminalGroups[0]?).map (fun g => g.useInProgress) =
        some (decide (sampleGroup.lastActivatedTime + sampleGroup.cooldownTimeInSeconds <
          (hackEnv 0).nowAtCheck)) :=
  have thm := cooldown_end_is_inclusive (sampleGlobal sampleGroup) (hackEnv 0) 16 0
    sampleGroup (sample_confirmedHack 0).1 rfl ⟨rfl, fun h => absurd h (by decide)⟩
  let ⟨r, hr⟩ := thm.2 (fun _ _ _ => sample_draws_defined 0)
  ⟨(sample_confirmedHack 0).1, rfl, ⟨rfl, fun h => absurd h (by decide)⟩,
    sample_escalates 0, sample_draws_defined 0, r, hr, thm.1 r hr⟩

/-! ### Activation and rejection -/

/-- Claim C5: whenever the handler returns at one of its rejections (plugin inactive, not in
space, no target, invalid sub-command, out of range, unknown target, on cooldown, in use,
missing confirm for hack or use, low reputation, insufficient credits), that is anywhere but
at its last line, the whole plugin state, with every terminal group and all its fields, is
the same after the call as before. -/
theorem rejection_changes_nothing (global : Global) (env : Env) (r : Result)
    (hr : UserCmdStartTerminalInteraction global env = some r)
    (h : r.reply ≠ Reply.started) : r.global = global := by
  rcases UserCmd_cases global env with ⟨r2, hSame, hGlobal, _⟩ | ⟨target, i, group, pre, hEq, _⟩
  · rw [hr] at hSame
    simp only [Option.some.injEq] at hSame
    rw [hSame]
    exact hGlobal
  · rw [hEq] at hr
    exact interact_global_of_rejected _ _ _ _ _ _ _ r hr h

/-- Witness of `rejection_changes_nothing`: the sample group on cooldown at 1030. -/
theorem rejection_changes_nothing_witness :
    UserCmdStartTerminalInteraction (sampleGlobal sampleGroup) (sampleEnv 1030 200 0) =
      some { global := sampleGlobal sampleGroup, reply := Reply.onCooldown
             calls := [Call.PrintUserCmdText Message.onCooldown] } ∧
    Reply.onCooldown ≠ Reply.started ∧
    ({ global := sampleGlobal sampleGroup, reply := Reply.onCooldown
       calls := [Call.PrintUserCmdText Message.onCooldown] } : Result).global =
      sampleGlobal sampleGroup :=
  ⟨by decide!, by decide,
    rejection_changes_nothing (sampleGlobal sampleGroup) (sampleEnv 1030 200 0)
      { global := sampleGlobal sampleGroup, reply := Reply.onCooldown
        calls := [Call.PrintUserCmdText Message.onCooldown] } (by decide!) (by decide)⟩

/-! ### Order of the checks -/

/-- Claim C6, as stated, fails: for a target that is on the list of no group and lies
outside the initiate radius, the first failing step in the order of the specification is
the unknown target, and the handler reports the range instead. -/
theorem unknown_target_out_of_range_reports_range :
    resolvedGroup (sampleGlobal sampleGroup) farEnv = none ∧
    firstFailure (specifiedChecks (sampleGlobal sampleGroup) farEnv) = some Reply.unknownTarget ∧
    (UserCmdStartTerminalInteraction (sampleGlobal sampleGroup) farEnv).map
      (fun r => r.reply) = some Reply.tooFar := by
  refine ⟨?_, ?_, ?_⟩ <;> decide!

/-- Claim C6, amended: the checks run in the order plugin availability, in space, has a
target, valid sub-command, within the initiate radius, target resolves to a known group,
not on cooldown, not in use; whenever one of them fails, the rejection reported is that of
the first failing check in this order. -/
theorem first_failing_check_is_reported (global : Global) (env : Env) (reply : Reply)
    (h : firstFailure (validationChecks global env) = some reply) :
    ∃ r, UserCmdStartTerminalInteraction global env = some r ∧ r.reply = reply := by
  unfold UserCmdStartTerminalInteraction
  unfold firstFailure validationChecks resolvedGroup at h
  cases hActive : global.pluginActive
  · simp [hActive, List.find?] at h
    subst h
    simp [hActive]
  · cases hShip : env.ship with
    | none =>
      simp [hActive, hShip, List.find?] at h
      subst h
      simp [hActive]
    | some ship =>
      cases hTarget : env.target with
      | none =>
        simp [hActive, hShip, hTarget, List.find?] at h
        subst h
        simp [hActive]
      | some target =>
        by_cases hValid : (!(env.action == "use") && env.action != "hack") = true
        · have hValid2 : (env.action != "use" && env.action != "hack") = true := by
            simpa using hValid
          simp only [hActive, hShip, hTarget, hValid2, List.find?, Bool.not_true,
            Option.isNone_some, Option.map_some', Option.some.injEq] at h
          subst h
          simp [hActive, hValid]
        · have hValid2 : (env.action != "use" && env.action != "hack") = false := by
            simpa using hValid
          cases hRange : (clientIsInRangeOfSolar env target
              global.config.terminalInitiateRadiusInMeters).1
          · simp only [hActive, hShip, hTarget, hValid2, hRange, List.find?, Bool.not_true,
              Bool.not_false, Option.any_some, Option.isNone_some, Option.map_some',
              Option.some.injEq] at h
            subst h
            simp [hActive, hValid, hRange]
          · cases hFind : findTerminalGroup env.createID target global.config.terminalGroups with
            | none =>
              simp only [hActive, hShip, hTarget, hValid2, hRange, hFind, List.find?,
                Bool.not_true, Bool.not_false, Option.any_some, Option.isNone_some,
                Option.isNone_none, Option.some_bind, Option.map_some',
                Option.some.injEq] at h
              subst h
              simp [hActive, hValid, hRange, hFind]
            | some p =>
              obtain ⟨i, group⟩ := p
              by_cases hCool :
                  env.nowAtCheck ≤ group.lastActivatedTime + group.cooldownTimeInSeconds
              · simp [hActive, hShip, hTarget, hValid2, hRange, hFind, hCool, List.find?] at h
                subst h
                simp [hActive, hValid, hRange, hFind, hCool]
              · cases hUse : group.useInProgress
                · simp [hActive, hShip, hTarget, hValid2, hRange, hFind, hCool, hUse,
                    List.find?] at h
                · simp [hActive, hShip, hTarget, hValid2, hRange, hFind, hCool, hUse,
                    List.find?] at h
                  subst h
                  simp [hActive, hValid, hRange, hFind, hCool, hUse]

/-- Witness of `first_failing_check_is_reported`: the far-away unknown target; the first
failing check in the order of the code is the range check. -/
theorem first_failing_check_is_reported_witness :
    firstFailure (validationChecks (sampleGlobal sampleGroup) farEnv) = some Reply.tooFar ∧
    ∃ r, UserCmdStartTerminalInteraction (sampleGlobal sampleGroup) farEnv = some r ∧
      r.reply = Reply.tooFar :=
  ⟨by decide!,
    first_failing_check_is_reported (sampleGlobal sampleGroup) farEnv Reply.tooFar (by decide!)⟩

/-! ### Confirmation -/

/-- Claim C7: for every request, `use` or `hack` or anything else, whose second token is
not exactly `confirm`, the handler returns, the plugin state is unchanged (so the group is
not reserved and no hostile NPC is recorded), the handler does not return at its last line,
and it makes no call that creates an NPC, sets an attitude or sets a reputation. -/
theorem unconfirmed_request_changes_nothing (global : Global) (env : Env)
    (h : env.confirm ≠ "confirm") :
    ∃ r, UserCmdStartTerminalInteraction global env = some r ∧
      r.global = global ∧ r.reply ≠ Reply.started ∧
      ∀ c ∈ r.calls, c.isEscalation = false := by
  rcases UserCmd_cases global env with hSame | ⟨target, i, group, pre, hEq, hPre⟩
  · exact hSame
  · rw [hEq]
    exact interact_unconfirmed global env target i group _ pre hPre h

/-- Witness of `unconfirmed_request_changes_nothing`: `/terminal hack` on the sample group
after its cooldown. -/
theorem unconfirmed_request_changes_nothing_witness :
    unconfirmedHackEnv.confirm ≠ "confirm" ∧
    (UserCmdStartTerminalInteraction (sampleGlobal sampleGroup) unconfirmedHackEnv).map
      (fun r => r.reply) = some Reply.hackConfirmPrompt ∧
    ∃ r, UserCmdStartTerminalInteraction (sampleGlobal sampleGroup) unconfirmedHackEnv =
        some r ∧
      r.global = sampleGlobal sampleGroup ∧ r.reply ≠ Reply.started ∧
      ∀ c ∈ r.calls, c.isEscalation = false :=
  ⟨by decide, by decide!,
    unconfirmed_request_changes_nothing (sampleGlobal sampleGroup) unconfirmedHackEnv
      (by decide)⟩

/-! ### Funds -/

/-- Claim C8, as stated, fails: a confirmed `use` request with 50 credits against a cost of
100 that passes the cooldown and in-use checks, made by an actor whose standing is -1/2, is
rejected with the low-reputation text, not with the insufficient-credits text. -/
theorem low_standing_is_reported_before_funds :
    reachesGroup (sampleGlobal sampleGroup) (sampleEnv 1061 50 (-1 / 2)) 16 0 sampleGroup ∧
    ¬ onCooldown (sampleEnv 1061 50 (-1 / 2)) sampleGroup ∧
    sampleGroup.useInProgress = false ∧
    (sampleEnv 1061 50 (-1 / 2)).action = "use" ∧
    (sampleEnv 1061 50 (-1 / 2)).confirm = "confirm" ∧
    (sampleEnv 1061 50 (-1 / 2)).cash < sampleGroup.useCostInCredits ∧
    (UserCmdStartTerminalInteraction (sampleGlobal sampleGroup)
      (sampleEnv 1061 50 (-1 / 2))).map (fun r => r.reply) = some Reply.lowReputation ∧
    (UserCmdStartTerminalInteraction (sampleGlobal sampleGroup)
      (sampleEnv 1061 50 (-1 / 2))).map (fun r => r.calls) =
        some [Call.PlaySoundEffect "ui_begin_scan",
          Call.PrintUserCmdText Message.reputationTooLow] := by
  refine ⟨⟨rfl, rfl, rfl, Or.inl rfl, ?_, ?_⟩, ?_, rfl, rfl, rfl, ?_, ?_, ?_⟩
  · decide!
  · decide!
  · unfold onCooldown; decide
  · decide
  · decide!
  · decide!

/-- Claim C8, amended: a confirmed `use` request that passes the checks up to the in-use
check is rejected with the low-reputation text when the standing is at most -0.25; with a
standing above -0.25 it is rejected with the insufficient-credits text when the cash is
less than `useCostInCredits` and succeeds otherwise. In both rejections the plugin state is
unchanged, so the group remains idle; with cash at least the cost the request is never
rejected for funds. -/
theorem funds_checked_after_standing (global : Global) (env : Env) (target i : Nat)
    (group : TerminalGroup) (h : reachesGroup global env target i group)
    (hCool : ¬ onCooldown env group) (hUse : group.useInProgress = false)
    (hLawful : env.action = "use") (hConfirm : env.confirm = "confirm") :
    ∃ r, UserCmdStartTerminalInteraction global env = some r ∧
      r.reply =
        (if env.rep ≤ -1 / 4 then Reply.lowReputation
          else if env.cash < group.useCostInCredits then Reply.notEnoughCredits
          else Reply.started) ∧
      r.global =
        (if env.rep ≤ -1 / 4 ∨ env.cash < group.useCostInCredits then global
          else global.setGroup i
            { group with useInProgress := true, lastActivatedTime := env.nowAtActivation }) := by
  rw [UserCmd_of_reachesGroup global env target i group h]
  unfold onCooldown at hCool
  simp only [hCool, hUse, if_false, Bool.false_eq_true]
  unfold interact
  simp only [hLawful, hConfirm, bne_self_eq_false, beq_self_eq_true, Bool.not_true,
    Bool.false_eq_true, if_false]
  by_cases hRep : env.rep ≤ -1 / 4
  · simp [hRep]
  · by_cases hCash : env.cash < group.useCostInCredits
    · simp [hRep, hCash]
    · simp [hRep, hCash]

/-- Witness of `funds_checked_after_standing`: 50 credits against a cost of 100 with a
neutral standing; the reply is the insufficient-credits rejection. -/
theorem funds_checked_after_standing_witness :
    reachesGroup (sampleGlobal sampleGroup) (sampleEnv 1061 50 0) 16 0 sampleGroup ∧
    ¬ onCooldown (sampleEnv 1061 50 0) sampleGroup ∧
    (UserCmdStartTerminalInteraction (sampleGlobal sampleGroup) (sampleEnv 1061 50 0)).map
      (fun r => r.reply) = some Reply.notEnoughCredits ∧
    ∃ r, UserCmdStartTerminalInteraction (sampleGlobal sampleGroup) (sampleEnv 1061 50 0) =
        some r ∧
      r.reply =
        (if (sampleEnv 1061 50 0).rep ≤ -1 / 4 then Reply.lowReputation
          else if (sampleEnv 1061 50 0).cash < sampleGroup.useCostInCredits
            then Reply.notEnoughCredits
          else Reply.started) :=
  have hyp : reachesGroup (sampleGlobal sampleGroup) (sampleEnv 1061 50 0) 16 0 sampleGroup :=
    ⟨rfl, rfl, rfl, Or.inl rfl, by decide!, by decide!⟩
  have hCool : ¬ onCooldown (sampleEnv 1061 50 0) sampleGroup := by
    unfold onCooldown; decide
  let ⟨r, hr, hReply, _⟩ := funds_checked_after_standing (sampleGlobal sampleGroup)
    (sampleEnv 1061 50 0) 16 0 sampleGroup hyp hCool rfl rfl rfl
  ⟨hyp, hCool, by decide!, r, hr, hReply⟩

/-! ### The position loop of CompleteTerminalInteraction -/

/-- The index of a probe is always drawn: its range `[0, size]` is never empty. -/
theorem probe_defined (positions : List Position) (raw : Nat) :
    ∃ index, GetRandomNumber 0 positions.length raw = some index :=
  ⟨_, GetRandomNumber_of_le 0 positions.length raw (Int.ofNat_nonneg _)⟩

/-- The loop started with at least `32 - counter` rounds ends, and the way it ends is
described by the probes from `counter` on: it stops at the first probe that is not sent
round again, which is accepted when it lies in the vector, and it gives up at probe
number 31 (the 32nd) when all probes before that were sent round again. -/
theorem selectLoop_spec (positions : List Position) (rng : Nat → Nat) (fuel counter : Nat)
    (hc : counter ≤ 31) (hf : 32 ≤ fuel + counter) :
    ∃ s, selectLoop positions rng fuel counter = some s ∧
      ((s = Selection.exhausted 32 ∧
          ∀ k, counter ≤ k → k < 31 → sentRoundAgain positions rng k = true) ∨
       (∃ k, counter ≤ k ∧ k < 31 ∧ sentRoundAgain positions rng k = false ∧
          (∀ j, counter ≤ j → j < k → sentRoundAgain positions rng j = true) ∧
          ((∃ index position, s = Selection.selected index (k + 1) ∧
              probeIndex positions rng k = some index ∧
              positions[index]? = some position ∧ position.despawnTime ≠ 0) ∨
           (s = Selection.undefinedRead (k + 1) ∧
              probedPosition positions rng k = none)))) := by
  induction fuel generalizing counter with
  | zero => omega
  | succ n ih =>
    obtain ⟨index, hdraw⟩ := probe_defined positions (rng counter)
    unfold selectLoop
    simp only [hdraw]
    by_cases h30 : counter > 30
    · have h31 : counter = 31 := by omega
      subst h31
      exact ⟨_, by simp, Or.inl ⟨rfl, fun k h1 h2 => by omega⟩⟩
    · simp only [h30, if_false]
      cases hget : positions[index.toNat]? with
      | none =>
        refine ⟨_, rfl, Or.inr ⟨counter, le_refl _, by omega, ?_, fun j h1 h2 => by omega,
          Or.inr ⟨rfl, ?_⟩⟩⟩
        · simp [sentRoundAgain, probedPosition, probeIndex, hdraw, hget]
        · simp [probedPosition, probeIndex, hdraw, hget]
      | some position =>
        by_cases hz : (position.despawnTime == 0) = true
        · simp only [hz, if_true]
          have hAgain : sentRoundAgain positions rng counter = true := by
            simp [sentRoundAgain, probedPosition, probeIndex, hdraw, hget, hz]
          obtain ⟨s, hs, hcase⟩ := ih (counter + 1) (by omega) (by omega)
          refine ⟨s, hs, ?_⟩
          have hext : ∀ (m : Nat),
              (∀ j, counter + 1 ≤ j → j < m → sentRoundAgain positions rng j = true) →
              ∀ j, counter ≤ j → j < m → sentRoundAgain positions rng j = true := by
            intro m hm j h1 h2
            rcases Nat.eq_or_lt_of_le h1 with heq | hlt
            · rw [← heq]; exact hAgain
            · exact hm j hlt h2
          rcases hcase with ⟨he, hall⟩ | ⟨k, hk1, hk2, hstop, hbefore, hres⟩
          · exact Or.inl ⟨he, hext 31 hall⟩
          · exact Or.inr ⟨k, by omega, hk2, hstop, hext k hbefore, hres⟩
        · simp only [hz, if_false]
          refine ⟨_, rfl, Or.inr ⟨counter, le_refl _, by omega, ?_, fun j h1 h2 => by omega,
            Or.inl ⟨index.toNat, position, rfl, ?_, hget, ?_⟩⟩⟩
          · simp [sentRoundAgain, probedPosition, probeIndex, hdraw, hget, hz]
          · simp [probeIndex, hdraw]
          · simpa using hz

/-- Whenever the loop selects a position, that position was occupied: its `despawnTime`
was not 0 when it was probed. -/
theorem selected_position_was_occupied (positions : List Position) (rng : Nat → Nat)
    (index probes : Nat)
    (h : selectSpawnPosition positions rng = some (Selection.selected index probes)) :
    ∃ position, positions[index]? = some position ∧ position.despawnTime ≠ 0 := by
  obtain ⟨s, hs, hcase⟩ := selectLoop_spec positions rng 32 0 (by omega) (by omega)
  unfold selectSpawnPosition at h
  rw [hs] at h
  simp only [Option.some.injEq] at h
  subst h
  rcases hcase with ⟨he, _⟩ | ⟨k, _, _, _, _, ⟨idx, position, hsel, _, hpos, hne⟩ | ⟨hund, _⟩⟩
  · simp at he
  · simp only [Selection.selected.injEq] at hsel
    rw [hsel.1]
    exact ⟨position, hpos, hne⟩
  · simp at hund

/-- Claim C9, the code at the failing input: with a free position at index 0 and a position
occupied since time 100 at index 1, probed in this order, the loop passes over the free
position and selects the occupied one; `CompleteTerminalInteraction` then overwrites the
`despawnTime` 100 of that position with the current time 5000 and spawns the event there.
With the free position alone, probed at every draw, the loop never selects it and gives up
after 32 draws. -/
theorem occupied_position_is_selected :
    selectSpawnPosition [freePosition, occupiedPosition] sampleCompleteEnv.rng =
      some (Selection.selected 1 2) ∧
    [freePosition, occupiedPosition][1]? = some occupiedPosition ∧
    occupiedPosition.despawnTime = 100 ∧
    CompleteTerminalInteraction sampleCompleteEnv
        (siteGroup [freePosition, occupiedPosition]) true =
      some (Outcome.completed
        (siteGroup [freePosition, { occupiedPosition with despawnTime := 5000 }])
        [ Call.ConDebug "wreck",
          Call.CreateSolarFormation "wreck_formation" ⟨0, 2000, 0⟩ 4,
          Call.CreateNpc "pirate" ⟨0, 2000, 0⟩ 4,
          Call.PrintUserCmdText (Message.eventDescription "medium") ]) ∧
    selectSpawnPosition [freePosition] zeroCompleteEnv.rng = some (Selection.exhausted 32) ∧
    CompleteTerminalInteraction zeroCompleteEnv (siteGroup [freePosition]) true =
      some (Outcome.noPosition (siteGroup [freePosition]) [Call.ConErr "wrecks"]) := by
  refine ⟨?_, rfl, rfl, ?_, ?_, ?_⟩ <;> decide!

/-- Claim C12, the code at the failing input: a group whose lawful event family list is
empty. `GetRandomWeight` has no error result and `CompleteTerminalInteraction` checks
nothing before it reads the family at the index it is given (line 163): the list being
empty, every index lies outside it, and the run is undefined. -/
theorem empty_family_list_is_read :
    sampleGroup.familyList true = [] ∧
    (sampleGroup.familyList true).map (fun eventFamily => eventFamily.spawnWeight) = [] ∧
    (∀ familyIndex : Nat, (sampleGroup.familyList true)[familyIndex]? = none) ∧
    CompleteTerminalInteraction sampleCompleteEnv sampleGroup true =
      some Outcome.undefinedBehaviour := by
  refine ⟨rfl, rfl, fun familyIndex => rfl, ?_⟩
  decide!

/-! ### The hostile response -/

/-- A confirmed hack whose roll escalates: the whole outcome of the handler. It is that of
the hostile spawn loop, undefined when the loop is; otherwise the group is written back with
the spawned objects appended and then reserved, and the calls are the sound, the
notification, the NPC creations, attitude, reputation and the texts. -/
theorem UserCmd_hack_escalated (global : Global) (env : Env) (target i : Nat)
    (group : TerminalGroup) (h : confirmedHack global env target i group)
    (hEsc : escalates env group) :
    UserCmdStartTerminalInteraction global env =
      (spawnHostileNpcs env group 1).map fun loop =>
        { global := global.setGroup i
            { group with
              activeHostileHackNpcs := group.activeHostileHackNpcs ++ loop.spawned
              useInProgress := true
              lastActivatedTime := env.nowAtActivation }
          reply := Reply.started
          calls :=
            (clientIsInRangeOfSolar env target
              global.config.terminalInitiateRadiusInMeters).2 ++
            [Call.PlaySoundEffect "ui_begin_scan"] ++
            [Call.PrintLocalUserCmdText global.config.messageHackStartNotifyAll
              global.config.terminalNotifyAllRadiusInMeters] ++
            loop.calls ++
            [ Call.SetAttitude env.terminalReputation env.playerReputation (-9 / 10),
              Call.SetReputation env.playerReputation env.terminalAffiliation
                (env.rep - group.hackRepReduction),
              Call.PrintUserCmdText Message.hackDetected ] ++
            [ Call.PrintUserCmdText Message.remainWithin,
              Call.PlaySoundEffect "ui_new_story_star",
              Call.LightFuse global.config.shipActiveTerminalFuse,
              Call.SetRelativeHealth target (1 / 2) ] } := by
  obtain ⟨hReach, hCool, hUse, hHack, hConfirm⟩ := h
  have hl : (env.action == "use") = false := by simp [hHack]
  rw [UserCmd_of_reachesGroup global env target i group hReach]
  unfold onCooldown at hCool
  simp only [hCool, hUse, if_false, Bool.false_eq_true, hl]
  exact interact_hack_escalated global env target i group _ hConfirm hEsc

/-- A confirmed hack whose roll does not escalate: the group is reserved and nothing else
of it changes; no call of the hostile response is made. -/
theorem UserCmd_hack_calm (global : Global) (env : Env) (target i : Nat)
    (group : TerminalGroup) (h : confirmedHack global env target i group)
    (hCalm : ¬ escalates env group) :
    UserCmdStartTerminalInteraction global env =
      some
        { global := global.setGroup i
            { group with useInProgress := true, lastActivatedTime := env.nowAtActivation }
          reply := Reply.started
          calls :=
            (clientIsInRangeOfSolar env target
              global.config.terminalInitiateRadiusInMeters).2 ++
            [Call.PlaySoundEffect "ui_begin_scan"] ++
            [Call.PrintLocalUserCmdText global.config.messageHackStartNotifyAll
              global.config.terminalNotifyAllRadiusInMeters] ++
            [ Call.PrintUserCmdText Message.remainWithin,
              Call.PlaySoundEffect "ui_new_story_star",
              Call.LightFuse global.config.shipActiveTerminalFuse,
              Call.SetRelativeHealth target (1 / 2) ] } := by
  obtain ⟨hReach, hCool, hUse, hHack, hConfirm⟩ := h
  have hl : (env.action == "use") = false := by simp [hHack]
  rw [UserCmd_of_reachesGroup global env target i group hReach]
  unfold onCooldown at hCool
  simp only [hCool, hUse, if_false, Bool.false_eq_true, hl]
  exact interact_hack_calm global env target i group _ hConfirm hCalm

/-- The rolls `0 .. m-1` that are at most `n` are `min m (n + 1)` many. -/
theorem countP_le_range (n m : Nat) :
    (List.range m).countP (fun roll : Nat => decide ((roll : Int) ≤ (n : Int))) =
      min m (n + 1) := by
  induction m with
  | zero => simp
  | succ k ih =>
    rw [List.range_succ, List.countP_append, ih]
    have hlast : [k].countP (fun roll : Nat => decide ((roll : Int) ≤ (n : Int))) =
        if k ≤ n then 1 else 0 := by
      by_cases hk : k ≤ n
      · have : ((k : Int) ≤ (n : Int)) := by omega
        simp [List.countP_cons, hk]
      · have : ¬ ((k : Int) ≤ (n : Int)) := by omega
        simp [List.countP_cons, hk]
    rw [hlast, Nat.min_def, Nat.min_def]
    split_ifs <;> omega

/-- For a hostile chance of `n / 100` with `n` in `0 .. 100`, the roll escalates for `n + 1`
of its 101 values. -/
theorem escalatingRolls_eq (n : Nat) (hn : n ≤ 100) :
    escalatingRolls ((n : ℚ) / 100) = n + 1 := by
  have hval : ((n : ℚ) / 100) * 100 = ((n : Int) : ℚ) := by
    push_cast
    field_simp
  have htrunc : truncToInt (((n : ℚ) / 100) * 100) = (n : Int) := by
    rw [hval]
    simp [truncToInt, Int.tdiv_one]
  unfold escalatingRolls
  rw [htrunc, countP_le_range]
  omega

/-- Claim C14, the code at the failing input: a group with `hackHostileChance = 0` and a
confirmed hack whose roll `GetRandomNumber(0, 100)` is 0. The test `0 <= int(0 * 100)`
holds, so the handler escalates: it creates and records two hostile NPCs, sets the hostile
attitude and lowers the reputation. One of the 101 values of the roll escalates at chance
0, and 51 of them at chance 0.5. -/
theorem zero_chance_still_escalates :
    confirmedHack (sampleGlobal calmGroup) (hackEnv 0) 16 0 calmGroup ∧
    calmGroup.hackHostileChance = 0 ∧
    GetRandomNumber 0 100 ((hackEnv 0).rng 0) = some 0 ∧
    escalates (hackEnv 0) calmGroup ∧
    (UserCmdStartTerminalInteraction (sampleGlobal calmGroup) (hackEnv 0)).map
      (fun r => hostileNpcLists r.global) = some [[sampleNpc, sampleNpc]] ∧
    (UserCmdStartTerminalInteraction (sampleGlobal calmGroup) (hackEnv 0)).map
      (fun r => decide (Call.SetAttitude 11 12 (-9 / 10) ∈ r.calls)) = some true ∧
    (UserCmdStartTerminalInteraction (sampleGlobal calmGroup) (hackEnv 0)).map
      (fun r => decide (Call.SetReputation 12 5 (-1 / 20) ∈ r.calls)) = some true ∧
    escalatingRolls 0 = 1 ∧ escalatingRolls (1 / 2) = 51 := by
  refine ⟨⟨⟨rfl, rfl, rfl, Or.inr rfl, ?_, ?_⟩, ?_, rfl, rfl, rfl⟩, rfl, ?_, ⟨0, ?_, ?_⟩, ?_,
    ?_, ?_, ?_, ?_⟩
  · decide!
  · decide!
  · unfold onCooldown; decide
  · decide
  · decide
  · decide!
  · decide!
  · decide!
  · decide!
  · decide!
  · decide!

/-- The handler either rejects at one of the checks of lines 222-303, with the state
unchanged and without any call of the hostile response, or the request reaches a group
that is neither on cooldown nor in use. -/
theorem UserCmd_cases_resolved (global : Global) (env : Env) :
    (∃ r, UserCmdStartTerminalInteraction global env = some r ∧ r.global = global ∧
      r.reply ≠ Reply.started ∧ ∀ c ∈ r.calls, c.isEscalation = false) ∨
    ∃ target i group, reachesGroup global env target i group ∧ ¬ onCooldown env group ∧
      group.useInProgress = false := by
  have hPrint : ∀ (pre : List Call) (m : Message), (∀ c ∈ pre, c.isEscalation = false) →
      ∀ c ∈ pre ++ [Call.PrintUserCmdText m], c.isEscalation = false := by
    intro pre m hPre c hc
    rcases List.mem_append.mp hc with hc | hc
    · exact hPre c hc
    · simp at hc; subst hc; rfl
  cases hActive : global.pluginActive
  · left
    unfold UserCmdStartTerminalInteraction
    simp only [hActive, Bool.not_false, if_true]
    exact ⟨_, rfl, rfl, by simp, hPrint [] _ (by simp)⟩
  cases hShip : env.ship with
  | none =>
    left
    unfold UserCmdStartTerminalInteraction
    simp only [hActive, hShip, Bool.not_true, Bool.false_eq_true, if_false]
    exact ⟨_, rfl, rfl, by simp, hPrint [] _ (by simp)⟩
  | some ship =>
  cases hTarget : env.target with
  | none =>
    left
    unfold UserCmdStartTerminalInteraction
    simp only [hActive, hShip, hTarget, Bool.not_true, Bool.false_eq_true, if_false]
    exact ⟨_, rfl, rfl, by simp, hPrint [] _ (by simp)⟩
  | some target =>
  by_cases hValid : (!(env.action == "use") && env.action != "hack") = true
  · left
    unfold UserCmdStartTerminalInteraction
    simp only [hActive, hShip, hTarget, hValid, Bool.not_true, Bool.false_eq_true, if_false,
      if_true]
    exact ⟨_, rfl, rfl, by simp, hPrint [] _ (by simp)⟩
  cases hRange : (clientIsInRangeOfSolar env target
      global.config.terminalInitiateRadiusInMeters).1
  · left
    unfold UserCmdStartTerminalInteraction
    simp only [hActive, hShip, hTarget, hValid, hRange, Bool.not_true, Bool.not_false,
      Bool.false_eq_true, if_false, if_true]
    exact ⟨_, rfl, rfl, by simp, hPrint _ _ (clientIsInRangeOfSolar_calls _ _ _)⟩
  cases hFind : findTerminalGroup env.createID target global.config.terminalGroups with
  | none =>
    left
    unfold UserCmdStartTerminalInteraction
    simp only [hActive, hShip, hTarget, hValid, hRange, hFind, Bool.not_true,
      Bool.false_eq_true, if_false]
    exact ⟨_, rfl, rfl, by simp, hPrint _ _ (clientIsInRangeOfSolar_calls _ _ _)⟩
  | some p =>
  obtain ⟨i, group⟩ := p
  have hAction : env.action = "use" ∨ env.action = "hack" := by
    by_cases hu : env.action = "use"
    · exact Or.inl hu
    · by_cases hh : env.action = "hack"
      · exact Or.inr hh
      · exact absurd (by simp [hu, hh]) hValid
  have hReach : reachesGroup global env target i group :=
    ⟨hActive, by simp [hShip], hTarget, hAction, hRange, hFind⟩
  by_cases hCool : onCooldown env group
  · left
    rw [UserCmd_of_reachesGroup global env target i group hReach]
    unfold onCooldown at hCool
    simp only [hCool, if_true]
    exact ⟨_, rfl, rfl, by simp, hPrint _ _ (clientIsInRangeOfSolar_calls _ _ _)⟩
  cases hUse : group.useInProgress
  · exact Or.inr ⟨target, i, group, hReach, hCool, hUse⟩
  · left
    rw [UserCmd_of_reachesGroup global env target i group hReach]
    unfold onCooldown at hCool
    simp only [hCool, hUse, if_false, if_true]
    exact ⟨_, rfl, rfl, by simp, hPrint _ _ (clientIsInRangeOfSolar_calls _ _ _)⟩

/-- Writing back a group with the same hostile-NPC list leaves the hostile-NPC lists of the
plugin state as they were. -/
theorem hostileNpcLists_setGroup (global : Global) (i : Nat) (group g : TerminalGroup)
    (hGet : global.config.terminalGroups[i]? = some group)
    (hSame : g.activeHostileHackNpcs = group.activeHostileHackNpcs) :
    hostileNpcLists (global.setGroup i g) = hostileNpcLists global := by
  unfold hostileNpcLists Global.setGroup
  apply List.ext_getElem?
  intro n
  simp only [List.getElem?_map, List.getElem?_set]
  by_cases hn : i = n
  · subst hn
    have hlt : i < global.config.terminalGroups.length := by
      rcases Nat.lt_or_ge i global.config.terminalGroups.length with hlt | hge
      · exact hlt
      · rw [List.getElem?_eq_none hge] at hGet
        exact absurd hGet (by simp)
    simp [hlt, hGet, hSame]
  · simp [hn]

/-- The lawful branch of `interact` returns, makes no call of the hostile response and
either leaves the state alone or reserves the group. -/
theorem interact_lawful (global : Global) (env : Env) (target i : Nat)
    (group : TerminalGroup) (pre : List Call) (hPre : ∀ c ∈ pre, c.isEscalation = false) :
    ∃ r, interact global env target i group true pre = some r ∧
      (∀ c ∈ r.calls, c.isEscalation = false) ∧
      (r.global = global ∨
        r.global = global.setGroup i
          { group with useInProgress := true, lastActivatedTime := env.nowAtActivation }) := by
  have hMem : ∀ (extra : List Call), (∀ c ∈ extra, c.isEscalation = false) →
      ∀ c ∈ pre ++ [Call.PlaySoundEffect "ui_begin_scan"] ++ extra,
        c.isEscalation = false := by
    intro extra hExtra c hc
    rcases List.mem_append.mp hc with hc | hc
    · rcases List.mem_append.mp hc with hc | hc
      · exact hPre c hc
      · simp at hc; subst hc; rfl
    · exact hExtra c hc
  unfold interact
  simp only [Bool.not_true, Bool.false_eq_true, if_false]
  split_ifs
  · exact ⟨_, rfl, hMem _ (by simp [Call.isEscalation]), Or.inl rfl⟩
  · exact ⟨_, rfl, hMem _ (by simp [Call.isEscalation]), Or.inl rfl⟩
  · exact ⟨_, rfl, hMem _ (by simp [Call.isEscalation]), Or.inl rfl⟩
  · refine ⟨_, rfl, ?_, Or.inr rfl⟩
    have := hMem [ Call.PrintUserCmdText Message.remainWithin,
      Call.PlaySoundEffect "ui_new_story_star",
      Call.LightFuse global.config.shipActiveTerminalFuse,
      Call.SetRelativeHealth target (1 / 2) ] (by simp [Call.isEscalation])
    simpa using this

/-- Claim C16: unless the request is a confirmed hack whose roll escalates on the group the
target resolves to, the handler returns without any call that creates an NPC, sets an
attitude or sets a reputation, and the `activeHostileHackNpcs` of every group are as
before. This covers every lawful request, every unconfirmed request and every hack whose
roll does not escalate. -/
theorem hostile_response_only_on_escalating_hack (global : Global) (env : Env)
    (h : env.action ≠ "hack" ∨ env.confirm ≠ "confirm" ∨
      ∀ p, resolvedGroup global env = some p → ¬ escalates env p.2) :
    ∃ r, UserCmdStartTerminalInteraction global env = some r ∧
      (∀ c ∈ r.calls, c.isEscalation = false) ∧
      hostileNpcLists r.global = hostileNpcLists global := by
  rcases UserCmd_cases_resolved global env with
    ⟨r, hr, hGlobal, _, hCalls⟩ | ⟨target, i, group, hReach, hCool, hUse⟩
  · exact ⟨r, hr, hCalls, by rw [hGlobal]⟩
  · have hGet := findTerminalGroup_getElem _ _ _ _ _ hReach.2.2.2.2.2
    have hRes : resolvedGroup global env = some (i, group) := by
      unfold resolvedGroup
      rw [hReach.2.2.1]
      simpa using hReach.2.2.2.2.2
    have hEq : UserCmdStartTerminalInteraction global env =
        interact global env target i group (env.action == "use")
          (clientIsInRangeOfSolar env target
            global.config.terminalInitiateRadiusInMeters).2 := by
      rw [UserCmd_of_reachesGroup global env target i group hReach]
      unfold onCooldown at hCool
      simp only [hCool, hUse, if_false, Bool.false_eq_true]
    by_cases hUseCmd : env.action = "use"
    · have hl : (env.action == "use") = true := by simp [hUseCmd]
      rw [hEq, hl]
      obtain ⟨r, hr, hc, hg⟩ := interact_lawful global env target i group _
        (clientIsInRangeOfSolar_calls env target _)
      refine ⟨r, hr, hc, ?_⟩
      rcases hg with hg | hg
      · rw [hg]
      · rw [hg]
        exact hostileNpcLists_setGroup global i group _ hGet rfl
    · have hHack : env.action = "hack" := hReach.2.2.2.1.resolve_left hUseCmd
      by_cases hConf : env.confirm = "confirm"
      · have hCalm : ¬ escalates env group := by
          rcases h with h | h | h
          · exact absurd hHack h
          · exact absurd hConf h
          · exact h (i, group) hRes
        rw [UserCmd_hack_calm global env target i group ⟨hReach, hCool, hUse, hHack, hConf⟩
          hCalm]
        refine ⟨_, rfl, ?_, hostileNpcLists_setGroup global i group _ hGet rfl⟩
        intro c hc
        simp only [List.mem_append, List.mem_cons, List.mem_singleton, List.mem_nil_iff,
          or_false] at hc
        rcases hc with ((hc | hc) | hc) | hc
        · exact clientIsInRangeOfSolar_calls env target _ c hc
        · subst hc; rfl
        · subst hc; rfl
        · rcases hc with hc | hc | hc | hc <;> (subst hc; rfl)
      · rw [hEq]
        obtain ⟨r, hr, hg, _, hc⟩ := interact_unconfirmed global env target i group _ _
          (clientIsInRangeOfSolar_calls env target _) hConf
        exact ⟨r, hr, hc, by rw [hg]⟩

/-- Witness of `hostile_response_only_on_escalating_hack`: the lawful sample request, which
succeeds. -/
theorem hostile_response_only_on_escalating_hack_witness :
    (sampleEnv 1061 200 0).action ≠ "hack" ∧
    (UserCmdStartTerminalInteraction (sampleGlobal sampleGroup) (sampleEnv 1061 200 0)).map
      (fun r => r.reply) = some Reply.started ∧
    ∃ r, UserCmdStartTerminalInteraction (sampleGlobal sampleGroup) (sampleEnv 1061 200 0) =
        some r ∧
      (∀ c ∈ r.calls, c.isEscalation = false) ∧
      hostileNpcLists r.global = hostileNpcLists (sampleGlobal sampleGroup) :=
  ⟨by decide, by decide!,
    hostile_response_only_on_escalating_hack (sampleGlobal sampleGroup)
      (sampleEnv 1061 200 0) (Or.inl (by decide))⟩

/-! ### Reputation -/

/-- Claim C17, as stated, fails whatever the bounds of the reputation collaborator are: for
the sample group (penalty 1/20) and an actor whose standing is at the lower bound, the
handler returns having handed to `SetReputation` a value that lies below that bound. -/
theorem standing_at_the_floor_is_pushed_below :
    ¬ ∃ lo hi : ℚ, lo ≤ hi ∧ ∀ rep, lo ≤ rep → rep ≤ hi →
      ∀ r, UserCmdStartTerminalInteraction (sampleGlobal sampleGroup) (hackEnv rep) = some r →
        ∀ v, Call.SetReputation 12 5 v ∈ r.calls → lo ≤ v ∧ v ≤ hi := by
  rintro ⟨lo, hi, hle, h⟩
  obtain ⟨loop, hloop⟩ := spawnHostileNpcs_defined (hackEnv lo) sampleGroup
    (sample_draws_defined lo)
  have hrun := UserCmd_hack_escalated _ _ 16 0 sampleGroup (sample_confirmedHack lo)
    (sample_escalates lo)
  rw [hloop, Option.map_some'] at hrun
  have := (h lo le_rfl hle _ hrun (lo - 1 / 20)
    (by simp [hackEnv, sampleEnv, sampleGroup])).1
  linarith

/-- Claim C17, amended: on every escalation, every result of the handler has handed to
`SetReputation` exactly the current standing minus the `hackRepReduction` of the group, for
the actor and the faction of the terminal, and no other value; the handler applies no bound
of its own, any clamping being left to the reputation collaborator. The handler returns
whenever the run is defined (the range of the spawn count is not empty and no kind index is
drawn outside `hostileHackNpcs`). -/
theorem reputation_handed_is_standing_minus_penalty (global : Global) (env : Env)
    (target i : Nat) (group : TerminalGroup) (h : confirmedHack global env target i group)
    (hEsc : escalates env group) :
    (∀ r, UserCmdStartTerminalInteraction global env = some r →
      Call.SetReputation env.playerReputation env.terminalAffiliation
          (env.rep - group.hackRepReduction) ∈ r.calls ∧
      ∀ a b v, Call.SetReputation a b v ∈ r.calls →
        a = env.playerReputation ∧ b = env.terminalAffiliation ∧
        v = env.rep - group.hackRepReduction) ∧
    (spawnDrawsDefined env group →
      ∃ r, UserCmdStartTerminalInteraction global env = some r) := by
  have hrun := UserCmd_hack_escalated global env target i group h hEsc
  refine ⟨fun r hr => ?_, fun hDef => ?_⟩
  · rw [hrun] at hr
    cases hloop : spawnHostileNpcs env group 1 with
    | none => simp [hloop] at hr
    | some loop =>
      have hcalls := (spawnHostileNpcs_spec env group loop hloop).2
      simp only [hloop, Option.map_some', Option.some.injEq] at hr
      subst hr
      refine ⟨by simp, ?_⟩
      intro a b v hc
      simp only [List.mem_append, List.mem_cons, List.mem_singleton, List.mem_nil_iff,
        or_false] at hc
      rcases hc with ((((hc | hc) | hc) | hc) | hc) | hc
      · have := clientIsInRangeOfSolar_calls env target _ _ hc
        simp [Call.isEscalation] at this
      · simp at hc
      · simp at hc
      · obtain ⟨_, _, _, h1⟩ := hcalls _ hc
        simp at h1
      · rcases hc with hc | hc | hc
        · simp at hc
        · simp only [Call.SetReputation.injEq] at hc
          exact hc
        · simp at hc
      · rcases hc with hc | hc | hc | hc <;> simp at hc
  · obtain ⟨loop, hloop⟩ := spawnHostileNpcs_defined env group hDef
    rw [hrun, hloop]
    exact ⟨_, rfl⟩

/-- Witness of `reputation_handed_is_standing_minus_penalty`: the sample group and an actor
of standing -1; the value handed is -21/20. -/
theorem reputation_handed_is_standing_minus_penalty_witness :
    confirmedHack (sampleGlobal sampleGroup) (hackEnv (-1)) 16 0 sampleGroup ∧
    escalates (hackEnv (-1)) sampleGroup ∧
    spawnDrawsDefined (hackEnv (-1)) sampleGroup ∧
    (UserCmdStartTerminalInteraction (sampleGlobal sampleGroup) (hackEnv (-1))).map
      (fun r => decide (Call.SetReputation 12 5 (-21 / 20) ∈ r.calls)) = some true ∧
    ∃ r, UserCmdStartTerminalInteraction (sampleGlobal sampleGroup) (hackEnv (-1)) = some r ∧
      Call.SetReputation (hackEnv (-1)).playerReputation (hackEnv (-1)).terminalAffiliation
          ((hackEnv (-1)).rep - sampleGroup.hackRepReduction) ∈ r.calls :=
  have thm := reputation_handed_is_standing_minus_penalty (sampleGlobal sampleGroup)
    (hackEnv (-1)) 16 0 sampleGroup (sample_confirmedHack (-1)) (sample_escalates (-1))
  let ⟨r, hr⟩ := thm.2 (sample_draws_defined (-1))
  ⟨sample_confirmedHack (-1), sample_escalates (-1), sample_draws_defined (-1), by decide!,
    r, hr, (thm.1 r hr).1⟩

/-! ### Loading and the end of a session -/

/-- A request made while the plugin is inactive is rejected at the first check. -/
theorem UserCmd_inactive (global : Global) (env : Env) (h : global.pluginActive = false) :
    UserCmdStartTerminalInteraction global env =
      some { global := global, reply := Reply.pluginError
             calls := [Call.PrintUserCmdText Message.pluginError] } := by
  unfold UserCmdStartTerminalInteraction
  simp [h]

/-- Claim C18: if the NPC communicator or the solar communicator is not found when
`LoadSettings` runs, the plugin state it leaves has `pluginActive == false`; every request
handled in that state is rejected at the first check, its only call being the
plugin-unavailable text, and leaves the state unchanged, so the same holds for every
sequence of subsequent requests. -/
theorem missing_collaborator_disables_engine (global : Global) (config : Config)
    (npcFound solarFound : Bool) (h : npcFound = false ∨ solarFound = false) :
    (LoadSettings global config npcFound solarFound).1.pluginActive = false ∧
    (∀ env, UserCmdStartTerminalInteraction
        (LoadSettings global config npcFound solarFound).1 env =
      some { global := (LoadSettings global config npcFound solarFound).1
             reply := Reply.pluginError
             calls := [Call.PrintUserCmdText Message.pluginError] }) ∧
    ∀ envs, handleRequests (LoadSettings global config npcFound solarFound).1 envs =
      some ((LoadSettings global config npcFound solarFound).1,
        envs.map (fun _ => Reply.pluginError)) := by
  have hOff : (LoadSettings global config npcFound solarFound).1.pluginActive = false := by
    unfold LoadSettings
    rcases h with h | h
    · subst h
      cases solarFound <;> simp
    · subst h
      cases npcFound <;> simp
  refine ⟨hOff, fun env => UserCmd_inactive _ env hOff, ?_⟩
  intro envs
  induction envs with
  | nil => rfl
  | cons env rest ih =>
    simp only [handleRequests, UserCmd_inactive _ env hOff, ih, List.map_cons]

/-- Witness of `missing_collaborator_disables_engine`: the solar communicator is missing;
a lawful request and a hack that would otherwise succeed are both rejected. -/
theorem missing_collaborator_disables_engine_witness :
    (LoadSettings (sampleGlobal sampleGroup) (sampleGlobal sampleGroup).config true
      false).1.pluginActive = false ∧
    handleRequests
      (LoadSettings (sampleGlobal sampleGroup) (sampleGlobal sampleGroup).config true false).1
      [sampleEnv 1061 200 0, hackEnv 0] =
      some
        ((LoadSettings (sampleGlobal sampleGroup) (sampleGlobal sampleGroup).config true
          false).1,
        [sampleEnv 1061 200 0, hackEnv 0].map (fun _ => Reply.pluginError)) :=
  have thm := missing_collaborator_disables_engine (sampleGlobal sampleGroup)
    (sampleGlobal sampleGroup).config true false (Or.inr rfl)
  ⟨thm.1, thm.2.2 [sampleEnv 1061 200 0, hackEnv 0]⟩

/-- Whatever `CompleteTerminalInteraction` returns, the group it returns has the
`useInProgress` and the `lastActivatedTime` it was given. -/
theorem Complete_keeps_reservation (env : CompleteEnv) (terminalGroup : TerminalGroup)
    (isLawful : Bool) (g : TerminalGroup) (calls : List Call)
    (h : CompleteTerminalInteraction env terminalGroup isLawful =
        some (Outcome.completed g calls) ∨
      CompleteTerminalInteraction env terminalGroup isLawful =
        some (Outcome.noPosition g calls)) :
    g.useInProgress = terminalGroup.useInProgress ∧
    g.lastActivatedTime = terminalGroup.lastActivatedTime := by
  have hSet : ∀ families,
      (terminalGroup.setFamilyList isLawful families).useInProgress =
        terminalGroup.useInProgress ∧
      (terminalGroup.setFamilyList isLawful families).lastActivatedTime =
        terminalGroup.lastActivatedTime := by
    intro families
    unfold TerminalGroup.setFamilyList
    cases isLawful <;> exact ⟨rfl, rfl⟩
  unfold CompleteTerminalInteraction at h
  dsimp only at h
  repeat' split at h
  all_goals first
    | (rcases h with h | h <;> simp at h; done)
    | (rcases h with h | h
       · simp only [Option.some.injEq, Outcome.completed.injEq] at h
         rw [← h.1]
         exact hSet _
       · simp at h)
    | (rcases h with h | h
       · simp at h
       · simp only [Option.some.injEq, Outcome.noPosition.injEq] at h
         rw [← h.1]
         exact ⟨rfl, rfl⟩)

/-- Claim C19, the code at the failing input: a group with a session running on it
(`useInProgress == true`, activated at 1000). `CompleteTerminalInteraction` completes the
interaction and returns the group still in use; the timer `TerminalInteractionTimer` and
`ProcessActiveTerminal` leave the plugin state, with the group in use, as it is. -/
theorem completion_leaves_group_in_use :
    busySiteGroup.useInProgress = true ∧ busySiteGroup.lastActivatedTime = 1000 ∧
    CompleteTerminalInteraction sampleCompleteEnv busySiteGroup true =
      some (Outcome.completed
        { busySiteGroup with
          eventFamilyUseList :=
            [sampleFamily [freePosition, { occupiedPosition with despawnTime := 5000 }]] }
        [ Call.ConDebug "wreck",
          Call.CreateSolarFormation "wreck_formation" ⟨0, 2000, 0⟩ 4,
          Call.CreateNpc "pirate" ⟨0, 2000, 0⟩ 4,
          Call.PrintUserCmdText (Message.eventDescription "medium") ]) ∧
    ({ busySiteGroup with
        eventFamilyUseList :=
          [sampleFamily [freePosition, { occupiedPosition with despawnTime := 5000 }]] }
      : TerminalGroup).useInProgress = true ∧
    TerminalInteractionTimer (sampleGlobal busySiteGroup) = sampleGlobal busySiteGroup ∧
    ProcessActiveTerminal (sampleGlobal busySiteGroup) = sampleGlobal busySiteGroup ∧
    (sampleGlobal busySiteGroup).config.terminalGroups.map (fun g => g.useInProgress) =
      [true] := by
  refine ⟨rfl, rfl, ?_, rfl, rfl, rfl, rfl⟩
  decide!

end Triggers

namespace Autobuy

/-! ## Theorems about the command `/autobuy` -/

/-- Claim C20: for each of the eight autobuy types `T` and each state `s` in on/off, the
command `/autobuy T s` sets the flag `T` of the entry of the client to `s` and leaves the
other seven flags as loaded; `/autobuy all s` sets all eight flags to `s`; and every
command whose type is neither one of the eight nor `all` (including `info`), or whose state
is neither `on` nor `off`, leaves the entry as loaded. -/
theorem autobuy_sets_exactly_the_named_flag :
    (∀ (stored : Option AutobuyInfo) (ini : String → Bool) (T s U : String),
      T ∈ autobuyTypes → (s = "on" ∨ s = "off") → U ∈ autobuyTypes →
      (UserCmdAutobuy stored ini T s).1.flag U =
        if U = T then decide (s = "on") else (LoadAutobuyInfo stored ini).flag U) ∧
    (∀ (stored : Option AutobuyInfo) (ini : String → Bool) (s U : String),
      (s = "on" ∨ s = "off") → U ∈ autobuyTypes →
      (UserCmdAutobuy stored ini "all" s).1.flag U = decide (s = "on")) ∧
    (∀ (stored : Option AutobuyInfo) (ini : String → Bool) (T s : String),
      (T ∉ autobuyTypes ∧ T ≠ "all") ∨ (s ≠ "on" ∧ s ≠ "off") →
      (UserCmdAutobuy stored ini T s).1 = LoadAutobuyInfo stored ini) := by
  refine ⟨?_, ?_, ?_⟩
  · intro stored ini T s U hT hs hU
    simp only [autobuyTypes, List.mem_cons, List.mem_singleton, List.mem_nil_iff,
      or_false] at hT hU
    rcases hs with rfl | rfl <;>
    rcases hT with rfl | rfl | rfl | rfl | rfl | rfl | rfl | rfl <;>
    rcases hU with rfl | rfl | rfl | rfl | rfl | rfl | rfl | rfl <;>
    rfl
  · intro stored ini s U hs hU
    simp only [autobuyTypes, List.mem_cons, List.mem_singleton, List.mem_nil_iff,
      or_false] at hU
    rcases hs with rfl | rfl <;>
    rcases hU with rfl | rfl | rfl | rfl | rfl | rfl | rfl | rfl <;>
    rfl
  · intro stored ini T s h
    unfold UserCmdAutobuy
    dsimp only
    rcases h with ⟨hT, hAll⟩ | ⟨hOn, hOff⟩
    · simp only [autobuyTypes, List.mem_cons, List.mem_singleton, List.mem_nil_iff,
        or_false, not_or] at hT
      obtain ⟨h1, h2, h3, h4, h5, h6, h7, h8⟩ := hT
      simp only [beq_iff_eq, hAll, h1, h2, h3, h4, h5, h6, h7, h8, if_false]
      split_ifs <;> rfl
    · have hBad : (s.isEmpty || (s != "on" && s != "off")) = true := by
        simp [hOn, hOff]
      simp only [hBad, if_true]
      split_ifs <;> rfl

/-- Witness of `autobuy_sets_exactly_the_named_flag`: on the sample entry, `mines on`
switches mines on and keeps missiles; `all off` switches missiles off; `info` and a state
`maybe` change nothing. -/
theorem autobuy_sets_exactly_the_named_flag_witness :
    (UserCmdAutobuy (some sampleInfo) (fun _ => false) "mines" "on").1 =
      { sampleInfo with mines := true } ∧
    (UserCmdAutobuy (some sampleInfo) (fun _ => false) "mines" "on").1.flag "mines" =
      (if "mines" = "mines" then decide ("on" = "on")
        else (LoadAutobuyInfo (some sampleInfo) (fun _ => false)).flag "mines") ∧
    (UserCmdAutobuy (some sampleInfo) (fun _ => false) "all" "off").1.flag "missiles" =
      decide ("off" = "on") ∧
    (UserCmdAutobuy (some sampleInfo) (fun _ => false) "info" "on").1 =
      LoadAutobuyInfo (some sampleInfo) (fun _ => false) ∧
    (UserCmdAutobuy (some sampleInfo) (fun _ => false) "mines" "maybe").1 =
      LoadAutobuyInfo (some sampleInfo) (fun _ => false) :=
  ⟨by decide,
    autobuy_sets_exactly_the_named_flag.1 (some sampleInfo) (fun _ => false) "mines" "on" "mines"
      (by decide) (Or.inl rfl) (by decide),
    autobuy_sets_exactly_the_named_flag.2.1 (some sampleInfo) (fun _ => false) "off" "missiles"
      (Or.inr rfl) (by decide),
    autobuy_sets_exactly_the_named_flag.2.2 (some sampleInfo) (fun _ => false) "info" "on"
      (Or.inl ⟨by decide, by decide⟩),
    autobuy_sets_exactly_the_named_flag.2.2 (some sampleInfo) (fun _ => false) "mines" "maybe"
      (Or.inr ⟨by decide, by decide⟩)⟩

end Autobuy

namespace Triggers

/-! ### The draws of the Triggers module -/

/-- Claim C23, the code at the failing input: two families of equal weight, the first with
one event and the second with two. The first weighted draw selects the first family, the
second weighted draw (line 166) selects the second family, whose two event weights give
the event index 1; that index is then used on the event list of the first family, which
has length 1. -/
theorem event_index_is_drawn_from_another_family :
    weightedDraws crossEnv twoFamilyGroup true = some (0, smallFamily, 1) ∧
    GetRandomWeight ((twoFamilyGroup.familyList true).map (fun f => f.spawnWeight))
      (crossEnv.weightRng 1) = some 1 ∧
    (twoFamilyGroup.familyList true)[1]? = some largeFamily ∧
    GetRandomWeight (largeFamily.eventList.map (fun e => e.spawnWeight))
      (crossEnv.weightRng 2) = some 1 ∧
    smallFamily.eventList.length = 1 ∧
    smallFamily.eventList[1]? = none ∧
    CompleteTerminalInteraction crossEnv twoFamilyGroup true =
      some Outcome.undefinedBehaviour := by
  refine ⟨?_, ?_, ?_, ?_, rfl, rfl, ?_⟩ <;> decide!

/-- Claim C24, the code at the failing input: a range of [1, 3], a first draw of the spawn
count of 3, and a second draw, made at the next test of the loop condition, of 1. The loop
stops after one NPC: one object is spawned and recorded, not three. -/
theorem spawn_count_is_drawn_at_every_test :
    confirmedHack (sampleGlobal variedGroup) redrawEnv 16 0 variedGroup ∧
    escalates redrawEnv variedGroup ∧
    GetRandomNumber variedGroup.minHostileHackHostileNpcs variedGroup.maxHostileHackHostileNpcs
      (redrawEnv.rng 1) = some 3 ∧
    GetRandomNumber variedGroup.minHostileHackHostileNpcs variedGroup.maxHostileHackHostileNpcs
      (redrawEnv.rng 6) = some 1 ∧
    (spawnHostileNpcs redrawEnv variedGroup 1).map (fun loop => loop.spawned) =
      some [sampleNpc] ∧
    (UserCmdStartTerminalInteraction (sampleGlobal variedGroup) redrawEnv).map
      (fun r => hostileNpcLists r.global) = some [[sampleNpc]] := by
  refine ⟨⟨⟨rfl, rfl, rfl, Or.inr rfl, ?_, ?_⟩, ?_, rfl, rfl, rfl⟩, ⟨0, ?_, ?_⟩, ?_, ?_, ?_,
    ?_⟩
  · decide!
  · decide!
  · unfold onCooldown; decide
  · decide
  · decide!
  · decide
  · decide
  · decide!
  · decide!

/-- A run of `LoadSettings` never switches the plugin back on. -/
theorem LoadSettings_keeps_inactive (global : Global) (config : Config)
    (npcFound solarFound : Bool) (h : global.pluginActive = false) :
    (LoadSettings global config npcFound solarFound).1.pluginActive = false := by
  unfold LoadSettings
  cases npcFound <;> cases solarFound <;> simp [h]

/-- Claim C25, the code at the failing input: `LoadSettings` runs once with the NPC
communicator missing and then again with both communicators found. After the second run
`pluginActive` is still false, the console is told once more that the plugin has been
disabled, and a request that would otherwise succeed is rejected as plugin-unavailable. -/
theorem good_reload_leaves_engine_disabled :
    (LoadSettings (sampleGlobal sampleGroup) (sampleGlobal sampleGroup).config false
      true).1.pluginActive = false ∧
    (LoadSettings
      (LoadSettings (sampleGlobal sampleGroup) (sampleGlobal sampleGroup).config false true).1
      (sampleGlobal sampleGroup).config true true).1.pluginActive = false ∧
    (LoadSettings
      (LoadSettings (sampleGlobal sampleGroup) (sampleGlobal sampleGroup).config false true).1
      (sampleGlobal sampleGroup).config true true).2 = [LoadDiagnostic.pluginDisabled] ∧
    (UserCmdStartTerminalInteraction
      (LoadSettings
        (LoadSettings (sampleGlobal sampleGroup) (sampleGlobal sampleGroup).config false
          true).1
        (sampleGlobal sampleGroup).config true true).1
      (sampleEnv 1061 200 0)).map (fun r => r.reply) = some Reply.pluginError ∧
    (UserCmdStartTerminalInteraction (sampleGlobal sampleGroup) (sampleEnv 1061 200 0)).map
      (fun r => r.reply) = some Reply.started := by
  refine ⟨?_, ?_, ?_, ?_, ?_⟩ <;> decide!

/-- Claim C26, the code at the failing input: `GetRandomNumber(0, size)` can answer `size`.
For a spawn position list of one position and the raw draw 1 the probed index is 1, outside
the list, and the loop reads `despawnTime` there. For the one-element list
`hostileHackNpcs` and the raw draw 1 the index of the kind of the first hostile NPC is 1,
outside the list: the kind is read past the end, so the spawn loop and with it the run of
the handler are undefined. -/
theorem drawn_index_can_equal_size :
    GetRandomNumber 0 ([occupiedPosition].length) 1 = some 1 ∧
    probeIndex [occupiedPosition] (fun _ => 1) 0 = some [occupiedPosition].length ∧
    selectSpawnPosition [occupiedPosition] (fun _ => 1) = some (Selection.undefinedRead 1) ∧
    sampleGroup.hostileHackNpcs.length = 1 ∧
    GetRandomNumber 0 sampleGroup.hostileHackNpcs.length (edgeEnv.rng 5) = some 1 ∧
    sampleGroup.hostileHackNpcs[1]? = none ∧
    spawnHostileNpcs edgeEnv sampleGroup 1 = none ∧
    confirmedHack (sampleGlobal sampleGroup) edgeEnv 16 0 sampleGroup ∧
    UserCmdStartTerminalInteraction (sampleGlobal sampleGroup) edgeEnv = none := by
  refine ⟨?_, ?_, ?_, rfl, ?_, rfl, ?_,
    ⟨⟨rfl, rfl, rfl, Or.inr rfl, ?_, ?_⟩, ?_, rfl, rfl, rfl⟩, ?_⟩
  · decide
  · decide
  · decide!
  · decide
  · decide!
  · decide!
  · decide!
  · unfold onCooldown; decide
  · decide!

end Triggers

namespace LootTables

/-! ## Theorems about the hook ShipDestroyed -/

/-- Claim C21, the code at the failing input: the configured list holds a table whose
trigger item is not aboard followed by a table that applies to the destroyed NPC ship with
`rollCount` 2. The first table ends the hook with `return`, so no drop is made for the
second table. With the second table alone, or with the two tables in the other order, its
two drops are made. -/
theorem table_after_a_miss_drops_nothing :
    applies absentTable npcShip = false ∧ applies presentTable npcShip = true ∧
    presentTable.rollCount = 2 ∧
    ShipDestroyed [absentTable, presentTable] 99 npcShip (fun _ => 0) = some [] ∧
    ShipDestroyed [presentTable] 99 npcShip (fun _ => 0) = some [goldDrop, goldDrop] ∧
    ShipDestroyed [presentTable, absentTable] 99 npcShip (fun _ => 0) =
      some [goldDrop, goldDrop] := by
  refine ⟨?_, ?_, rfl, ?_, ?_, ?_⟩ <;> decide

end LootTables

namespace DailyTasks

/-! ## Theorems about `/resettasks` and the reward -/

/-- A `/resettasks` in a state whose reset record is set, or in which a task is completed,
is rejected and changes nothing. -/
theorem reset_rejected (global : Global) (host : Host)
    (h : global.tasksReset = true ∨ global.tasks.any (fun t => t.isCompleted == true) = true) :
    UserCmdResetDailyTasks global host =
      some (global,
        if global.tasks.any (fun t => t.isCompleted == true) = true
          then ResetReply.completedToday else ResetReply.alreadyReset) := by
  unfold UserCmdResetDailyTasks
  by_cases hc : global.tasks.any (fun t => t.isCompleted == true) = true
  · simp only [hc, if_true]
  · rcases h with h | h
    · simp only [hc, h, if_false, Bool.false_eq_true, beq_iff_eq]
      rfl
    · exact absurd h hc

/-- Once the reset record is set, every sequence of further `/resettasks` commands leaves
the state as it is and never returns at the reset. -/
theorem resetRepeatedly_rejected (global : Global) (h : global.tasksReset = true)
    (hosts : List Host) :
    ∃ replies, resetRepeatedly global hosts = some (global, replies) ∧
      replies.length = hosts.length ∧ ∀ r ∈ replies, r ≠ ResetReply.tasksReset := by
  induction hosts with
  | nil => exact ⟨[], rfl, rfl, by simp⟩
  | cons host rest ih =>
    obtain ⟨replies, hrest, hlen, hall⟩ := ih
    refine ⟨(if global.tasks.any (fun t => t.isCompleted == true) = true
        then ResetReply.completedToday else ResetReply.alreadyReset) :: replies,
      ?_, by simp [hlen], ?_⟩
    · simp only [resetRepeatedly, reset_rejected global host (Or.inl h), Option.some_bind,
        hrest, Option.map_some']
    · intro r hr
      rcases List.mem_cons.mp hr with hr | hr
      · rw [hr]
        split_ifs <;> simp
      · exact hall r hr

/-- Claim C22: when a `/resettasks` succeeds for an account, the reset record of the
account is set, and as long as it is set (the daily timer being the only code that clears
it) every further `/resettasks` of the account is rejected and leaves the task list and the
rest of the state unchanged; and a `/resettasks` while a task of the account is completed
is rejected with the completed-today text and leaves the state unchanged. -/
theorem resettasks_once_per_day (global : Global) (host : Host) :
    (∀ after, UserCmdResetDailyTasks global host = some (after, ResetReply.tasksReset) →
      after.tasksReset = true ∧
      ∀ hosts, ∃ replies, resetRepeatedly after hosts = some (after, replies) ∧
        replies.length = hosts.length ∧ ∀ r ∈ replies, r ≠ ResetReply.tasksReset) ∧
    (global.tasksReset = true →
      ∃ r, UserCmdResetDailyTasks global host = some (global, r) ∧
        r ≠ ResetReply.tasksReset) ∧
    (global.tasks.any (fun t => t.isCompleted == true) = true →
      UserCmdResetDailyTasks global host = some (global, ResetReply.completedToday)) := by
  refine ⟨?_, ?_, ?_⟩
  · intro after hdone
    have hset : after.tasksReset = true := by
      unfold UserCmdResetDailyTasks at hdone
      split_ifs at hdone with h1 h2
      · simp at hdone
      · cases hgen : generateTasks global host global.config.taskQuantity.toNat 0 with
        | none => simp [hgen] at hdone
        | some made =>
          simp only [hgen, Option.map_some', Option.some.injEq, Prod.mk.injEq,
            and_true] at hdone
          rw [← hdone]
      · simp at hdone
    exact ⟨hset, resetRepeatedly_rejected after hset⟩
  · intro hset
    refine ⟨_, reset_rejected global host (Or.inl hset), ?_⟩
    split_ifs <;> simp
  · intro hc
    rw [reset_rejected global host (Or.inr hc), if_pos hc]

/-- Witness of `resettasks_once_per_day`: on the sample state the first `/resettasks`
succeeds and generates two tasks; two further `/resettasks` are rejected. -/
theorem resettasks_once_per_day_witness :
    ∃ after,
      UserCmdResetDailyTasks sampleGlobal sampleHost = some (after, ResetReply.tasksReset) ∧
      after.tasks.length = 2 ∧ after.tasksReset = true ∧
      ∃ replies, resetRepeatedly after [sampleHost, sampleHost] = some (after, replies) ∧
        replies.length = 2 ∧ ∀ r ∈ replies, r ≠ ResetReply.tasksReset :=
  have hdone : ∃ after,
      UserCmdResetDailyTasks sampleGlobal sampleHost = some (after, ResetReply.tasksReset) ∧
      after.tasks.length = 2 := by
    cases hrun : UserCmdResetDailyTasks sampleGlobal sampleHost with
    | none => exact absurd hrun (by decide!)
    | some r =>
      have hreply : (UserCmdResetDailyTasks sampleGlobal sampleHost).map (fun r => r.2) =
          some ResetReply.tasksReset := by decide!
      have hlen : (UserCmdResetDailyTasks sampleGlobal sampleHost).map
          (fun r => r.1.tasks.length) = some 2 := by decide!
      rw [hrun] at hreply hlen
      simp only [Option.map_some', Option.some.injEq] at hreply hlen
      exact ⟨r.1, by rw [← hreply], hlen⟩
  let ⟨after, hrun, hlen⟩ := hdone
  have thm := (resettasks_once_per_day sampleGlobal sampleHost).1 after hrun
  ⟨after, hrun, hlen, thm.1, thm.2 [sampleHost, sampleHost]⟩

/-- Claim C29, the code at the failing input: a rolled reward of 5000 credits and 10 units of
an item of base price 100, and a hold size of -5, as `ItemPurchased` passes it when 10 units
are bought with 5 units of hold remaining. No item is granted, and the credits granted are
5000 + 15 * 100 = 6500, not 5000 + (10 - 0) * 100 = 6000: the ten items that do not fit are
compensated as fifteen. -/
theorem negative_hold_is_overcompensated :
    GenerateReward sampleGlobal (fun _ => 0) 0 (-5) =
      some { credits := 6500, item := 40, cargo := none, creditReward := 5000
             rolledQuantity := 10, price := 100 } ∧
    (GenerateReward sampleGlobal (fun _ => 0) 0 (-5)).map (fun r => r.granted) = some 0 ∧
    (GenerateReward sampleGlobal (fun _ => 0) 0 (-5)).map
      (fun r => decide ((r.credits : ℚ) =
        r.creditReward + ((r.rolledQuantity - r.granted : Int) : ℚ) * r.price)) = some false ∧
    (ItemPurchased { sampleGlobal with tasks := [buyTask] } (fun _ => 0) 40 10 1 5).map
      (fun r => r.2) =
      some [{ credits := 6500, item := 40, cargo := none, creditReward := 5000
              rolledQuantity := 10, price := 100 }] ∧
    GenerateReward sampleGlobal (fun _ => 0) 0 4 =
      some { credits := 5600, item := 40, cargo := some 4, creditReward := 5000
             rolledQuantity := 10, price := 100 } := by
  refine ⟨?_, ?_, ?_, ?_, ?_⟩ <;> decide!

end DailyTasks

namespace Autobuy

/-! ## Theorems about the cart -/

/-- Claim C27, the code at the failing input: a player with 100 credits and a cart of two
items that cost 80 credits each. Each cost is compared with the 100 credits read before the
loop, which the loop never lowers, so both items are bought: 160 credits are removed. -/
theorem cart_total_exceeds_cash :
    cartLoop sampleShop 100 10 sampleCart =
      [ CartCall.RemoveCash 80, CartCall.AddCargo 1 1,
        CartCall.PrintUserCmdText (CartText.bought "Missiles" 1 80),
        CartCall.RemoveCash 80, CartCall.AddCargo 2 1,
        CartCall.PrintUserCmdText (CartText.bought "Mines" 1 80) ] ∧
    creditsRemoved (cartLoop sampleShop 100 10 sampleCart) = 160 ∧
    ¬ creditsRemoved (cartLoop sampleShop 100 10 sampleCart) ≤ 100 := by
  refine ⟨?_, ?_, ?_⟩ <;> decide!

/-- Claim C28, the code at the failing input: one mounted launcher whose ammo has a
configured limit of 50, and 30 units of that ammo held. `GetAmmoLimits` computes the limit
50 and the adjustment 50 - 30 = 20; `AddEquipToCart` subtracts the 30 units held a second
time and stores 20 - 30 in the unsigned count, which wraps to 4294967286. -/
theorem ammo_count_wraps_around :
    GetAmmoLimits sampleArmoury sampleEquipment =
      [(500, { ammoCount := 30, launcherCount := 1, ammoLimit := 50, ammoAdjustment := 20
               sid := 2 })] ∧
    PlayerGetAmmoCount sampleEquipment 500 = 30 ∧
    AddEquipToCart sampleArmoury 400 sampleEquipment "Missiles"
        (GetAmmoLimits sampleArmoury sampleEquipment) =
      { archId := 500, count := 4294967286, description := "Missiles" } ∧
    ¬ ((AddEquipToCart sampleArmoury 400 sampleEquipment "Missiles"
        (GetAmmoLimits sampleArmoury sampleEquipment)).count : Int) +
      PlayerGetAmmoCount sampleEquipment 500 ≤ 50 := by
  refine ⟨?_, ?_, ?_, ?_⟩ <;> decide

end Autobuy


namespace Warehouse

/-! ## Theorems about the numbering -/

/-- A line of `/warehouse list` that the loop prints from the counter `k` carries a number
above `k`, and its item stands at that number, counted from `k`, among the cargo that is
not skipped. -/
theorem listLoop_index (cargo : List CARGO_INFO) (k : Nat) (line : Listed CARGO_INFO)
    (h : line ∈ listLoop k cargo) :
    k < line.index ∧
      (cargo.filter (fun info => !skipped info))[line.index - k - 1]? = some line.item := by
  induction cargo generalizing k with
  | nil => simp [listLoop] at h
  | cons info rest ih =>
    unfold listLoop at h
    by_cases hs : skipped info = true
    · rw [if_pos hs] at h
      have := ih k h
      simpa [List.filter, hs] using this
    · rw [if_neg hs] at h
      have hs2 : skipped info = false := by simpa using hs
      rcases List.mem_cons.mp h with heq | hmem
      · subst heq
        simp [List.filter, hs2]
      · obtain ⟨hlt, hget⟩ := ih (k + 1) hmem
        refine ⟨by omega, ?_⟩
        have hidx : line.index - k - 1 = (line.index - (k + 1) - 1) + 1 := by omega
        rw [hidx]
        simpa [List.filter, hs2] using hget

/-- The numbering of `/warehouse list` is the one `/warehouse store` uses: with the number of
a printed line, a quantity the item has and the fee in hand, the command removes the cargo
of that line. -/
theorem store_resolves_listed_number (config : Config) (host : Host)
    (cargo : List CARGO_INFO) (line : Listed CARGO_INFO) (count : Int)
    (hline : line ∈ UserCmdGetItems cargo) (hcount : max 1 count ≤ line.item.iCount)
    (hcash : config.costPerStackStore ≤ host.cash) :
    UserCmdStoreItem config host cargo line.index count =
      (Reply.stored (max 1 count),
        [ Call.RemoveCash config.costPerStackStore,
          Call.RemoveCargo line.item.iId (max 1 count),
          Call.GetOrAddItem line.item.iArchId (max 1 count), Call.SaveChar ]) := by
  obtain ⟨hpos, hget⟩ := listLoop_index cargo 0 line hline
  have hget2 : (cargo.filter (fun info => !skipped info))[line.index - 1]? = some line.item := by
    simpa using hget
  have hlen : line.index - 1 < (cargo.filter (fun info => !skipped info)).length := by
    by_contra hge
    rw [List.getElem?_eq_none (by omega)] at hget2
    cases hget2
  have h0 : (line.index == 0) = false := by
    simp; omega
  have hle : ¬ line.index > (cargo.filter (fun info => !skipped info)).length := by omega
  have hq : ¬ (max 1 count > line.item.iCount ∨ max 1 count ≤ 0) := by
    have : (1 : Int) ≤ max 1 count := le_max_left _ _
    omega
  have hc : ¬ host.cash < config.costPerStackStore := by omega
  unfold UserCmdStoreItem
  simp only [h0, hget2, Bool.false_eq_true, if_false, if_neg hle]
  simp [hq, hc]
  omega

/-- Claim C30, the code at the failing input: three stored items of which the first has an
archetype that no longer exists. `/warehouse liststored` skips the first item without
counting it and prints the second item as 1 and the third as 2. `/warehouse withdraw 2`
takes the second entry of the full list, so it withdraws the second item and not the third
one shown as 2; `/warehouse withdraw 1` reports an internal error. -/
theorem withdraw_number_is_off_after_stale_item :
    UserCmdGetWarehouseItems sampleHost [staleItem, secondItem, thirdItem] =
      [{ index := 1, item := secondItem }, { index := 2, item := thirdItem }] ∧
    UserCmdWithdrawItem sampleConfig sampleHost [staleItem, secondItem, thirdItem] 2 1 =
      (Reply.withdrawn 202 1,
        [ Call.RemoveItem secondItem.id 1, Call.AddCargo secondItem.equipArchId 1,
          Call.RemoveCash 100, Call.SaveChar ]) ∧
    UserCmdWithdrawItem sampleConfig sampleHost [staleItem, secondItem, thirdItem] 1 1 =
      (Reply.itemDoesNotExist, []) ∧
    secondItem ≠ thirdItem := by
  refine ⟨?_, ?_, ?_, ?_⟩ <;> decide!

end Warehouse
